import Mathlib

/-!
Shallow embedding of the material-shader-replacer node-graph engine
(`node_config.py`, `operators.py`, `cache.py`, `error_handler.py`).

Conventions of the embedding:
* Strings carry the same literal values as the Python source; case folding
  and substring tests are implemented on the underlying character lists so
  that everything reduces in the kernel.
* A node graph is a list of nodes plus a list of links; a link stores the
  endpoint node names and positional socket indices, mirroring how the
  source addresses sockets.  Python object identity of sockets is modelled
  by the positional index inside the owning node.
* `links.new` never fails in the host model, so `safe_link` always succeeds
  and appends the link; `nodes.remove` removes the node and, as in the host
  application, every link incident to it.
* Scores in `_find_best_input_socket` use the float weights 0.8 and 0.6;
  every score is a multiple of 0.2, so the embedding stores scores scaled
  by 5 as naturals (`scoreInput5`) and relates them to the exact rational
  formula (`scoreInputQ`).
-/

/-- Lower-case a character list (model of Python `str.lower`). -/
def lowerChars (l : List Char) : List Char := l.map Char.toLower

/-- Boolean list-prefix test on characters. -/
def listPrefix : List Char → List Char → Bool
  | [], _ => true
  | _ :: _, [] => false
  | a :: pa, b :: pb => (a == b) && listPrefix pa pb

/-- Does `pat` occur as a contiguous sublist? -/
def charsContain (pat : List Char) : List Char → Bool
  | [] => listPrefix pat []
  | c :: rest => listPrefix pat (c :: rest) || charsContain pat rest

/-- Model of the Python containment test `pat in s`. -/
def strContains (s pat : String) : Bool := charsContain pat.data s.data

/-- Model of Python `s.lower()`. -/
def strLower (s : String) : String := ⟨lowerChars s.data⟩

/-- Model of Python `s.startswith(p)`. -/
def strStartsWith (s p : String) : Bool := listPrefix p.data s.data

/-- Model of Python `s.strip()`. -/
def strStrip (s : String) : String :=
  ⟨((s.data.dropWhile Char.isWhitespace).reverse.dropWhile Char.isWhitespace).reverse⟩

/-- Keyword lists of `SocketSemantics` (node_config.py lines 14-24). -/
def COLOR_KEYWORDS : List String :=
  ["color", "base color", "diffuse", "albedo", "颜色", "基础色", "漫反射", "反照率"]

def NORMAL_KEYWORDS : List String := ["normal", "bump", "法线", "凹凸"]

def ROUGHNESS_KEYWORDS : List String := ["roughness", "rough", "glossy", "gloss", "粗糙", "光泽"]

def METALLIC_KEYWORDS : List String := ["metallic", "metal", "金属"]

def ALPHA_KEYWORDS : List String := ["alpha", "opacity", "transparency", "透明", "不透明", "fac"]

def EMISSION_KEYWORDS : List String := ["emission", "emissive", "glow", "自发光", "发光"]

def SPECULAR_KEYWORDS : List String := ["specular", "spec", "reflection", "高光", "反射"]

def SUBSURFACE_KEYWORDS : List String := ["subsurface", "sss", "次表面"]

def AO_KEYWORDS : List String := ["ao", "ambient occlusion", "occlusion", "环境光遮蔽", "遮蔽"]

def DISPLACEMENT_KEYWORDS : List String := ["displacement", "height", "disp", "置换", "高度"]

/-- `SocketSemantics.get_socket_semantic` (node_config.py lines 26-55). -/
def get_socket_semantic (socket_name : String) : String :=
  let name_lower := strLower socket_name
  if strContains name_lower "base color" || strContains name_lower "basecolor" then "COLOR"
  else if NORMAL_KEYWORDS.any (fun kw => strContains name_lower kw) then "NORMAL"
  else if ROUGHNESS_KEYWORDS.any (fun kw => strContains name_lower kw) then "ROUGHNESS"
  else if METALLIC_KEYWORDS.any (fun kw => strContains name_lower kw) then "METALLIC"
  else if ALPHA_KEYWORDS.any (fun kw => strContains name_lower kw) then "ALPHA"
  else if EMISSION_KEYWORDS.any (fun kw => strContains name_lower kw) then "EMISSION"
  else if SPECULAR_KEYWORDS.any (fun kw => strContains name_lower kw) then "SPECULAR"
  else if SUBSURFACE_KEYWORDS.any (fun kw => strContains name_lower kw) then "SUBSURFACE"
  else if AO_KEYWORDS.any (fun kw => strContains name_lower kw) then "AO"
  else if DISPLACEMENT_KEYWORDS.any (fun kw => strContains name_lower kw) then "DISPLACEMENT"
  else if strContains name_lower "color" || strContains name_lower "颜色" then "COLOR"
  else "UNKNOWN"

/-- Spec-side reading of the classifier: an ordered priority table of keyword
groups, most specific first, generic color last. -/
def semanticPriorityGroups : List (List String × String) :=
  [ (["base color", "basecolor"], "COLOR"),
    (NORMAL_KEYWORDS, "NORMAL"),
    (ROUGHNESS_KEYWORDS, "ROUGHNESS"),
    (METALLIC_KEYWORDS, "METALLIC"),
    (ALPHA_KEYWORDS, "ALPHA"),
    (EMISSION_KEYWORDS, "EMISSION"),
    (SPECULAR_KEYWORDS, "SPECULAR"),
    (SUBSURFACE_KEYWORDS, "SUBSURFACE"),
    (AO_KEYWORDS, "AO"),
    (DISPLACEMENT_KEYWORDS, "DISPLACEMENT"),
    (["color", "颜色"], "COLOR") ]

/-- Return the category of the first group with a matching keyword. -/
def firstGroupAux (nl : String) : List (List String × String) → String
  | [] => "UNKNOWN"
  | (kws, cat) :: rest =>
      if kws.any (fun kw => strContains nl kw) then cat else firstGroupAux nl rest

/-- Spec-side classifier: first matching group in priority order wins. -/
def firstMatchingGroup (name : String) : String :=
  firstGroupAux (strLower name) semanticPriorityGroups

/-- Lookup in an association table with default 0
(model of Python `dict.get(key, 0)`). -/
def tblLookup : List ((String × String) × Nat) → String × String → Nat
  | [], _ => 0
  | (k, v) :: rest, q => if q = k then v else tblLookup rest q

/-- The fixed table inside `are_semantically_compatible`
(node_config.py lines 62-72). -/
def semanticCompatTable : List ((String × String) × Nat) :=
  [ (("COLOR", "COLOR"), 100),
    (("COLOR", "EMISSION"), 80),
    (("NORMAL", "NORMAL"), 100),
    (("ROUGHNESS", "ROUGHNESS"), 100),
    (("ROUGHNESS", "SPECULAR"), 60),
    (("METALLIC", "METALLIC"), 100),
    (("ALPHA", "ALPHA"), 100),
    (("AO", "ROUGHNESS"), 40),
    (("AO", "SPECULAR"), 40) ]

/-- `SocketSemantics.are_semantically_compatible` (node_config.py lines 57-74). -/
def are_semantically_compatible (output_semantic input_semantic : String) : Nat :=
  if output_semantic = input_semantic then 100
  else tblLookup semanticCompatTable (output_semantic, input_semantic)

/-- `NodeTypeConfig.SHADER_NODE_TYPES` (node_config.py lines 94-131). -/
def SHADER_NODE_TYPES : List String :=
  [ "BSDF_PRINCIPLED", "BSDF_DIFFUSE", "BSDF_GLOSSY", "BSDF_TRANSPARENT",
    "BSDF_GLASS", "BSDF_TRANSLUCENT", "BSDF_ANISOTROPIC", "BSDF_VELVET",
    "BSDF_REFRACTION", "BSDF_TOON", "BSDF_SHEEN",
    "BSDF_HAIR", "BSDF_HAIR_PRINCIPLED",
    "SUBSURFACE_SCATTERING", "EMISSION",
    "VOLUME_ABSORPTION", "VOLUME_SCATTER", "VOLUME_PRINCIPLED",
    "MIX_SHADER", "ADD_SHADER",
    "HOLDOUT", "BACKGROUND", "EEVEE_SPECULAR" ]

/-- `NodeTypeConfig.TEXTURE_NODE_TYPES` (node_config.py lines 136-150). -/
def TEXTURE_NODE_TYPES : List String :=
  [ "TEX_IMAGE", "TEX_ENVIRONMENT", "TEX_SKY", "TEX_NOISE", "TEX_VORONOI",
    "TEX_WAVE", "TEX_MAGIC", "TEX_CHECKER", "TEX_BRICK", "TEX_GRADIENT",
    "TEX_WHITE_NOISE", "TEX_GABOR", "TEX_MUSGRAVE" ]

/-- `NodeTypeConfig.SHADER_TYPE_TO_CLASS` (node_config.py lines 156-186). -/
def SHADER_TYPE_TO_CLASS : List (String × String) :=
  [ ("BSDF_PRINCIPLED", "ShaderNodeBsdfPrincipled"),
    ("BSDF_DIFFUSE", "ShaderNodeBsdfDiffuse"),
    ("BSDF_GLOSSY", "ShaderNodeBsdfGlossy"),
    ("BSDF_TRANSPARENT", "ShaderNodeBsdfTransparent"),
    ("BSDF_GLASS", "ShaderNodeBsdfGlass"),
    ("BSDF_TRANSLUCENT", "ShaderNodeBsdfTranslucent"),
    ("BSDF_ANISOTROPIC", "ShaderNodeBsdfAnisotropic"),
    ("BSDF_REFRACTION", "ShaderNodeBsdfRefraction"),
    ("BSDF_TOON", "ShaderNodeBsdfToon"),
    ("BSDF_SHEEN", "ShaderNodeBsdfSheen"),
    ("BSDF_HAIR", "ShaderNodeBsdfHair"),
    ("BSDF_HAIR_PRINCIPLED", "ShaderNodeBsdfHairPrincipled"),
    ("SUBSURFACE_SCATTERING", "ShaderNodeSubsurfaceScattering"),
    ("EMISSION", "ShaderNodeEmission"),
    ("HOLDOUT", "ShaderNodeHoldout"),
    ("BACKGROUND", "ShaderNodeBackground"),
    ("VOLUME_ABSORPTION", "ShaderNodeVolumeAbsorption"),
    ("VOLUME_SCATTER", "ShaderNodeVolumeScatter"),
    ("VOLUME_PRINCIPLED", "ShaderNodeVolumePrincipled"),
    ("MIX_SHADER", "ShaderNodeMixShader"),
    ("ADD_SHADER", "ShaderNodeAddShader") ]

/-- `NodeTypeConfig.BUILTIN_SHADER_TYPES` (node_config.py lines 214-221). -/
def BUILTIN_SHADER_TYPES : List String :=
  [ "BSDF_PRINCIPLED", "BSDF_DIFFUSE", "BSDF_GLOSSY", "BSDF_TRANSPARENT",
    "BSDF_GLASS", "EMISSION", "BSDF_ANISOTROPIC", "BSDF_HAIR",
    "SUBSURFACE_SCATTERING", "VOLUME_ABSORPTION", "VOLUME_SCATTER",
    "VOLUME_PRINCIPLED", "MIX_SHADER", "ADD_SHADER", "BSDF_SHEEN",
    "BSDF_TRANSLUCENT", "BSDF_REFRACTION", "BSDF_TOON", "HOLDOUT",
    "BSDF_HAIR_PRINCIPLED", "BACKGROUND" ]

/-- `NodeTypeConfig.SHADER_KEYWORDS` (node_config.py line 226). -/
def SHADER_KEYWORDS : List String := ["shader", "bsdf", "material", "着色", "材质", "surface"]

/-- `NodeTypeConfig.get_shader_class_name` (node_config.py lines 286-295). -/
def get_shader_class_name (shader_type : String) : String :=
  match SHADER_TYPE_TO_CLASS.find? (fun p => p.1 == shader_type) with
  | some p => p.2
  | none => "ShaderNodeBsdfPrincipled"

/-- `NodeTypeConfig.is_valid_builtin_shader` (node_config.py lines 298-300). -/
def is_valid_builtin_shader (shader_type : String) : Bool :=
  BUILTIN_SHADER_TYPES.contains shader_type

/-- A socket: display name plus data kind (the Blender socket `type`,
one of SHADER, RGBA, VECTOR, VALUE, ...). -/
structure Socket where
  name : String
  type : String
deriving Repr, DecidableEq

/-- A node of a material graph.  `nodeTree` holds the group-definition name
when the node is a group instance (`node.node_tree.name`). -/
structure Node where
  name : String
  label : String
  type : String
  nodeTree : Option String
  inputs : List Socket
  outputs : List Socket
deriving Repr, DecidableEq

/-- A link, addressing both sockets positionally inside their nodes. -/
structure Link where
  fromNode : String
  fromIndex : Nat
  toNode : String
  toIndex : Nat
deriving Repr, DecidableEq

/-- A material node graph. -/
structure Graph where
  nodes : List Node
  links : List Link
deriving Repr, DecidableEq

/-- Model of `nodes.get(name)`: the first node with the given name. -/
def nodesGet (g : Graph) (nm : String) : Option Node :=
  g.nodes.find? (fun n => n.name == nm)

/-- Model of a successful `links.new`: the link is appended. -/
def addLink (g : Graph) (l : Link) : Graph :=
  { g with links := g.links ++ [l] }

/-- Model of `nodes.remove`: the first node with the name disappears and,
as in the host, so does every link incident to that name. -/
def removeNode (g : Graph) (nm : String) : Graph :=
  { nodes := g.nodes.eraseP (fun n => n.name == nm),
    links := g.links.filter (fun l => !(l.fromNode == nm) && !(l.toNode == nm)) }

/-- `NodeTypeConfig.is_shader_node` (node_config.py lines 253-278). -/
def is_shader_node (n : Node) : Bool :=
  if SHADER_NODE_TYPES.contains n.type then true
  else if n.type == "GROUP" then
    match n.nodeTree with
    | none => false
    | some tn =>
        n.outputs.any (fun o => o.type == "SHADER")
          || SHADER_KEYWORDS.any (fun kw => strContains (strLower tn) kw)
  else false

/-- `NodeTypeConfig.is_texture_node` (node_config.py lines 281-283). -/
def is_texture_node (n : Node) : Bool := TEXTURE_NODE_TYPES.contains n.type

/-- First index of a socket carrying exactly the given name
(model of by-name collection lookup `coll[name]`). -/
def firstIdxNamed (sockets : List Socket) (nm : String) : Option Nat :=
  (sockets.enum.find? (fun p => p.2.name == nm)).map (fun p => p.1)

/-- `_find_shader_output` (operators.py lines 635-653) and the equivalent
inline loop of the auto-connection pass: first SHADER-kind output, else the
first output, else nothing. -/
def findShaderOutputIdx (n : Node) : Option Nat :=
  match (n.outputs.enum.find? (fun p => p.2.type == "SHADER")).map (fun p => p.1) with
  | some i => some i
  | none => if n.outputs.isEmpty then none else some 0

/-- Surface-input resolution of the auto-connection pass
(node_config.py lines 667-674): first of the listed name variants present,
else the first input. -/
def surfaceInputIdxAuto (outN : Node) : Option Nat :=
  match ["Surface", "surface", "表面", "曲面", "表（曲）面"].findSome?
      (fun nm => firstIdxNamed outN.inputs nm) with
  | some i => some i
  | none => if outN.inputs.isEmpty then none else some 0

/-- Surface-input resolution of the replacement engine
(operators.py lines 1061-1065 and 1112-1116): the input named Surface,
else the first input. -/
def surfaceInputIdxReplace (outN : Node) : Option Nat :=
  match firstIdxNamed outN.inputs "Surface" with
  | some i => some i
  | none => if outN.inputs.isEmpty then none else some 0

/-- `_get_type_compatibility_score` table (operators.py lines 430-439). -/
def typeCompatTable : List ((String × String) × Nat) :=
  [ (("RGBA", "RGBA"), 100),
    (("RGBA", "VECTOR"), 80),
    (("RGBA", "VALUE"), 60),
    (("VECTOR", "VECTOR"), 100),
    (("VECTOR", "RGBA"), 80),
    (("VALUE", "VALUE"), 100),
    (("VALUE", "RGBA"), 60),
    (("SHADER", "SHADER"), 100) ]

/-- `_get_type_compatibility_score` (operators.py lines 423-441). -/
def get_type_compatibility_score (output_type input_type : String) : Nat :=
  if output_type = input_type then 100
  else tblLookup typeCompatTable (output_type, input_type)

/-- Name-match component of `_find_best_input_socket`
(operators.py lines 562-568). -/
def nameMatchScore (original_name : String) (inp : Socket) : Nat :=
  if inp.name = original_name then 100
  else if strLower inp.name = strLower original_name then 90
  else if strContains (strLower inp.name) (strLower original_name)
        || strContains (strLower original_name) (strLower inp.name) then 50
  else 0

/-- Positional bonus `max(0, 10 - idx)` (operators.py line 582);
natural subtraction performs the clamping. -/
def posBonus (idx : Nat) : Nat := 10 - idx

/-- The candidate score of `_find_best_input_socket`, stored at 5x scale:
the source computes `name + 0.8*semantic + 0.6*type + position` in floats,
and all of its scores are multiples of 0.2. -/
def scoreInput5 (original_name original_type : String) (idx : Nat) (inp : Socket) : Nat :=
  5 * nameMatchScore original_name inp
    + 4 * are_semantically_compatible (get_socket_semantic original_name)
        (get_socket_semantic inp.name)
    + 3 * get_type_compatibility_score original_type inp.type
    + 5 * posBonus idx

/-- The same score as the exact rational of the source formula
(weights 0.8 and 0.6). -/
def scoreInputQ (original_name original_type : String) (idx : Nat) (inp : Socket) : ℚ :=
  (nameMatchScore original_name inp : ℚ)
    + (are_semantically_compatible (get_socket_semantic original_name)
        (get_socket_semantic inp.name) : ℚ) * (8 / 10)
    + (get_type_compatibility_score original_type inp.type : ℚ) * (6 / 10)
    + (posBonus idx : ℚ)

/-- Model of `candidates.sort(reverse=True)` followed by taking the head:
the stable descending sort puts the first candidate attaining the maximal
score first, so a fold keeping the earliest strict maximum is equivalent. -/
def bestCandidate : List (Nat × Nat) → Option (Nat × Nat)
  | [] => none
  | c :: cs => some (cs.foldl (fun b x => if b.2 < x.2 then x else b) c)

/-- `_find_best_input_socket` (operators.py lines 541-596); 150 is the
threshold 30 at the 5x scale. -/
def find_best_input_socket (shader : Node) (original_name original_type : String)
    (connected : List Nat) : Option Nat :=
  let candidates := (shader.inputs.enum.filter (fun p => !(connected.contains p.1))).map
    (fun p => (p.1, scoreInput5 original_name original_type p.1 p.2))
  match bestCandidate candidates with
  | some c => if 150 ≤ c.2 then some c.1 else none
  | none => none

/-- `_find_best_output_socket` (operators.py lines 598-633).  The
`connected_outputs` argument is accepted and ignored, as in the source. -/
def find_best_output_socket (shader : Node) (original_name original_type : String)
    (_connectedOutputs : List Nat) : Option Nat :=
  match firstIdxNamed shader.outputs original_name with
  | some i => some i
  | none =>
    match (shader.outputs.enum.find?
        (fun p => strLower p.2.name == strLower original_name)).map (fun p => p.1) with
    | some i => some i
    | none =>
      match (shader.outputs.enum.find? (fun p => p.2.type == original_type)).map
          (fun p => p.1) with
      | some i => some i
      | none => if shader.outputs.isEmpty then none else some 0

/-- Shader-to-output sub-pass of `apply_auto_connections`
(node_config.py lines 656-682).  The loop body breaks out of the shader
iteration as soon as a shader node yields a shader output. -/
def pass1 (outN : Node) (g : Graph) : List Node → Graph × Nat
  | [] => (g, 0)
  | sn :: rest =>
    match findShaderOutputIdx sn with
    | none => pass1 outN g rest
    | some so =>
      match surfaceInputIdxAuto outN with
      | some si => (addLink g ⟨sn.name, so, outN.name, si⟩, 1)
      | none => (g, 0)

/-- `has_alpha_input` of the texture sub-pass (node_config.py lines 689-694). -/
def hasAlphaInput (shader : Node) : Bool :=
  shader.inputs.any (fun inp => get_socket_semantic inp.name == "ALPHA")

/-- First unconnected input whose lowered name contains the keyword
(node_config.py lines 711-722: collect, sort by index, take the head). -/
def firstUnconnectedMatching (shader : Node) (connected : List Nat) (kw : String) :
    Option Nat :=
  (shader.inputs.enum.find?
    (fun p => !(connected.contains p.1) && strContains (strLower p.2.name) kw)).map
    (fun p => p.1)

/-- Colour-input search of the image-texture branch (node_config.py
lines 707-722): keyword priority list, earliest matching input wins. -/
def texImageColorTarget (shader : Node) (connected : List Nat) : Option Nat :=
  [ "base color", "basecolor", "color", "颜色", "diffuse",
    "漫反射", "albedo", "反照率", "基础色" ].findSome?
    (fun kw => firstUnconnectedMatching shader connected kw)

/-- Alpha-input search of the image-texture branch (node_config.py
lines 737-751): any of the keywords, earliest input wins. -/
def texImageAlphaTarget (shader : Node) (connected : List Nat) : Option Nat :=
  (shader.inputs.enum.find? (fun p => !(connected.contains p.1)
      && ["alpha", "opacity", "transparency", "透明"].any
        (fun kw => strContains (strLower p.2.name) kw))).map (fun p => p.1)

/-- Image-texture branch of the texture sub-pass
(node_config.py lines 701-759). -/
def texImageStep (shader : Node) (hasAlphaIn : Bool) (tex : Node)
    (st : Graph × Nat × List Nat) : Graph × Nat × List Nat :=
  let g := st.1
  let c := st.2.1
  let connected := st.2.2
  let afterColor : Graph × Nat × List Nat :=
    if tex.outputs.isEmpty then (g, c, connected)
    else
      match texImageColorTarget shader connected with
      | some ti => (addLink g ⟨tex.name, 0, shader.name, ti⟩, c + 1, ti :: connected)
      | none => (g, c, connected)
  if hasAlphaIn && decide (1 < tex.outputs.length) then
    match texImageAlphaTarget shader afterColor.2.2 with
    | some ai =>
        (addLink afterColor.1 ⟨tex.name, 1, shader.name, ai⟩, afterColor.2.1 + 1,
          ai :: afterColor.2.2)
    | none => afterColor
  else afterColor

/-- Keyword classification of a non-image texture by its label or name
(node_config.py lines 763-779). -/
def texKeywordSemantic (texName : String) : String :=
  if ["normal", "norm", "法线"].any (fun kw => strContains texName kw) then "NORMAL"
  else if ["rough", "gloss", "粗糙", "光泽"].any (fun kw => strContains texName kw) then
    "ROUGHNESS"
  else if ["metal", "金属"].any (fun kw => strContains texName kw) then "METALLIC"
  else if ["ao", "ambient", "遮蔽"].any (fun kw => strContains texName kw) then "AO"
  else if ["emit", "glow", "发光"].any (fun kw => strContains texName kw) then "EMISSION"
  else if ["alpha", "opacity", "透明"].any (fun kw => strContains texName kw) then "ALPHA"
  else "COLOR"

/-- Best unconnected input by semantic compatibility alone, with strict
improvement as in the Python `if score > best_score` fold
(node_config.py lines 799-813 and 868-882). -/
def bestSemInput (shader : Node) (connected : List Nat) (outSem : String) :
    Nat × Option Nat :=
  shader.inputs.enum.foldl
    (fun b p =>
      if connected.contains p.1 then b
      else
        let s := are_semantically_compatible outSem (get_socket_semantic p.2.name)
        if b.1 < s then (s, some p.1) else b)
    (0, none)

/-- Non-image texture branch of the texture sub-pass
(node_config.py lines 761-822). -/
def texSemanticStep (shader : Node) (tex : Node) (st : Graph × Nat × List Nat) :
    Graph × Nat × List Nat :=
  let g := st.1
  let c := st.2.1
  let connected := st.2.2
  let texName := strLower (if tex.label != "" then tex.label else tex.name)
  let texSem := texKeywordSemantic texName
  let colorOut : Option Nat :=
    match (tex.outputs.enum.find? (fun p => ["RGBA", "VECTOR"].contains p.2.type
        && strContains (strLower p.2.name) "color")).map (fun p => p.1) with
    | some i => some i
    | none => (tex.outputs.enum.find? (fun p => ["RGBA", "VECTOR"].contains p.2.type)).map
        (fun p => p.1)
  match colorOut with
  | none => (g, c, connected)
  | some co =>
    let best := bestSemInput shader connected texSem
    match best.2 with
    | some bi =>
        if 50 ≤ best.1 then
          (addLink g ⟨tex.name, co, shader.name, bi⟩, c + 1, bi :: connected)
        else (g, c, connected)
    | none => (g, c, connected)

/-- Per-texture dispatch of the texture sub-pass (node_config.py
lines 696-701: skip output-less textures, special-case image textures). -/
def texStep (shader : Node) (hasAlphaIn : Bool) (st : Graph × Nat × List Nat)
    (tex : Node) : Graph × Nat × List Nat :=
  if tex.outputs.isEmpty then st
  else if tex.type == "TEX_IMAGE" then texImageStep shader hasAlphaIn tex st
  else texSemanticStep shader tex st

/-- Texture-to-shader sub-pass for one shader node: fresh
`connected_inputs` per shader (node_config.py lines 686-694). -/
def passTwoShader (textures : List Node) (acc : Graph × Nat) (shader : Node) :
    Graph × Nat :=
  let r := textures.foldl (texStep shader (hasAlphaInput shader)) (acc.1, acc.2, [])
  (r.1, r.2.1)

/-- Texture-to-shader sub-pass (node_config.py lines 685-822). -/
def passTwo (shaders textures : List Node) (g : Graph) : Graph × Nat :=
  shaders.foldl (passTwoShader textures) (g, 0)

/-- Label-or-name keyword fallback for outputs of UNKNOWN semantic in the
other-node sub-pass (node_config.py lines 852-866). -/
def otherNodeFallbackSemantic (nodeName : String) : String :=
  if ["normal", "norm", "法线"].any (fun kw => strContains nodeName kw) then "NORMAL"
  else if ["rough", "粗糙"].any (fun kw => strContains nodeName kw) then "ROUGHNESS"
  else if ["metal", "金属"].any (fun kw => strContains nodeName kw) then "METALLIC"
  else if ["ao", "遮蔽"].any (fun kw => strContains nodeName kw) then "AO"
  else if ["bump", "凹凸"].any (fun kw => strContains nodeName kw) then "NORMAL"
  else if ["alpha", "透明"].any (fun kw => strContains nodeName kw) then "ALPHA"
  else "COLOR"

/-- Output loop of the other-node sub-pass for one source node: the first
successful connection breaks out of the output iteration
(node_config.py lines 846-891). -/
def otherOutputsLoop (shader : Node) (otherName nodeName : String)
    (st : Graph × Nat × List Nat) : List (Nat × Socket) → Graph × Nat × List Nat
  | [] => st
  | (oi, out) :: rest =>
    if !(["RGBA", "VECTOR", "VALUE"].contains out.type) then
      otherOutputsLoop shader otherName nodeName st rest
    else
      let sem0 := get_socket_semantic out.name
      let sem := if sem0 == "UNKNOWN" then otherNodeFallbackSemantic nodeName else sem0
      let best := bestSemInput shader st.2.2 sem
      match best.2 with
      | some bi =>
          if 40 ≤ best.1 then
            (addLink st.1 ⟨otherName, oi, shader.name, bi⟩, st.2.1 + 1, bi :: st.2.2)
          else otherOutputsLoop shader otherName nodeName st rest
      | none => otherOutputsLoop shader otherName nodeName st rest

/-- Per-source-node step of the other-node sub-pass. -/
def otherNodeStep (shader : Node) (st : Graph × Nat × List Nat) (other : Node) :
    Graph × Nat × List Nat :=
  if other.outputs.isEmpty then st
  else
    let nodeName := strLower (if other.label != "" then other.label else other.name)
    otherOutputsLoop shader other.name nodeName st other.outputs.enum

/-- Other-node sub-pass for one shader node (fresh `connected_inputs`). -/
def passThreeShader (others : List Node) (acc : Graph × Nat) (shader : Node) :
    Graph × Nat :=
  let r := others.foldl (otherNodeStep shader) (acc.1, acc.2, [])
  (r.1, r.2.1)

/-- Other-node-to-shader sub-pass (node_config.py lines 826-892). -/
def passThree (shaders others : List Node) (g : Graph) : Graph × Nat :=
  shaders.foldl (passThreeShader others) (g, 0)

/-- The shader-node collection of `apply_auto_connections`
(node_config.py lines 641-647). -/
def autoShaderNodes (g : Graph) : List Node :=
  g.nodes.filter (fun n =>
    SHADER_NODE_TYPES.contains n.type
      || (n.type == "GROUP" && n.nodeTree.isSome && is_shader_node n))

/-- The other-node collection of `apply_auto_connections`
(node_config.py lines 827-833). -/
def autoOtherNodes (g : Graph) : List Node :=
  g.nodes.filter (fun n =>
    !(TEXTURE_NODE_TYPES.contains n.type) && !(SHADER_NODE_TYPES.contains n.type)
      && n.type != "OUTPUT_MATERIAL" && n.type != "GROUP")

/-- `AutoConnectionRules.apply_auto_connections`
(node_config.py lines 616-892).  The node collections are computed once;
only links change while the passes run. -/
def apply_auto_connections (g : Graph) (autoConnect : Bool) : Graph × Nat :=
  if !autoConnect then (g, 0)
  else
    let outputNode := g.nodes.find? (fun n => n.type == "OUTPUT_MATERIAL")
    let shaderNodes := autoShaderNodes g
    let textureNodes := g.nodes.filter is_texture_node
    let r1 : Graph × Nat :=
      match outputNode with
      | some o => if shaderNodes.isEmpty then (g, 0) else pass1 o g shaderNodes
      | none => (g, 0)
    let r2 : Graph × Nat :=
      if !shaderNodes.isEmpty && !textureNodes.isEmpty then
        passTwo shaderNodes textureNodes r1.1
      else (r1.1, 0)
    let others := autoOtherNodes g
    let r3 : Graph × Nat :=
      if !shaderNodes.isEmpty && !others.isEmpty then passThree shaderNodes others r2.1
      else (r2.1, 0)
    (r3.1, r1.2 + r2.2 + r3.2)

/-- One captured incoming link of a node about to be replaced
(operators.py lines 939-959). -/
structure CapturedIn where
  from_node : String
  from_node_type : String
  from_socket : String
  from_socket_type : String
  from_socket_index : Int
  to_socket_index : Int
  to_socket_type : String
deriving Repr, DecidableEq

/-- One captured outgoing link of a node about to be replaced
(operators.py lines 961-981). -/
structure CapturedOut where
  to_node : String
  to_node_type : String
  to_socket : String
  to_socket_type : String
  to_socket_index : Int
  from_socket_index : Int
  from_socket_type : String
deriving Repr, DecidableEq

/-- `get_socket_index` (operators.py lines 443-459) applied to a live link
endpoint: the stored positional index when it is in range, else -1. -/
def capturedIndex (len : Nat) (idx : Nat) : Int :=
  if idx < len then Int.ofNat idx else -1

/-- Append a value under its key, preserving first-seen key order: the model
of Python `dict` insertion used to group captured links by socket name. -/
def insertGrouped {A : Type} : List (String × List A) → String → A → List (String × List A)
  | [], k, v => [(k, [v])]
  | (k0, vs) :: rest, k, v =>
      if k0 == k then (k0, vs ++ [v]) :: rest else (k0, vs) :: insertGrouped rest k v

/-- Group a keyed list as Python dict-of-lists insertion does. -/
def groupByKey {A : Type} (pairs : List (String × A)) : List (String × List A) :=
  pairs.foldl (fun acc p => insertGrouped acc p.1 p.2) []

/-- Flatten the grouped lists back into iteration order
(`for socket_name, connections in ...items(): for conn in connections`). -/
def flattenGroups {A : Type} : List (String × List A) → List (String × A)
  | [] => []
  | (k, vs) :: rest => vs.map (fun v => (k, v)) ++ flattenGroups rest

/-- Capture of incoming links (operators.py lines 939-959), keyed by the
destination socket name.  The host guarantees that a live link's sockets
belong to their nodes, so links whose endpoints do not resolve are not
captured. -/
def captureInputs (g : Graph) (old : Node) : List (String × CapturedIn) :=
  g.links.filterMap (fun l =>
    if l.toNode == old.name then
      match old.inputs.get? l.toIndex, nodesGet g l.fromNode with
      | some toSock, some fromN =>
        match fromN.outputs.get? l.fromIndex with
        | some fromSock =>
            some (toSock.name,
              { from_node := l.fromNode
                from_node_type := fromN.type
                from_socket := fromSock.name
                from_socket_type := fromSock.type
                from_socket_index := capturedIndex fromN.outputs.length l.fromIndex
                to_socket_index := capturedIndex old.inputs.length l.toIndex
                to_socket_type := toSock.type })
        | none => none
      | _, _ => none
    else none)

/-- Capture of outgoing links (operators.py lines 961-981), keyed by the
source socket name. -/
def captureOutputs (g : Graph) (old : Node) : List (String × CapturedOut) :=
  g.links.filterMap (fun l =>
    if l.fromNode == old.name then
      match old.outputs.get? l.fromIndex, nodesGet g l.toNode with
      | some fromSock, some toN =>
        match toN.inputs.get? l.toIndex with
        | some toSock =>
            some (fromSock.name,
              { to_node := l.toNode
                to_node_type := toN.type
                to_socket := toSock.name
                to_socket_type := toSock.type
                to_socket_index := capturedIndex toN.inputs.length l.toIndex
                from_socket_index := capturedIndex old.outputs.length l.fromIndex
                from_socket_type := fromSock.type })
        | none => none
      | _, _ => none
    else none)

/-- Host-supplied node construction: the socket interfaces Blender gives a
node created by `nodes.new`, and the type tag it assigns to a node of a
given Python class. -/
structure NodeFactory where
  groupInterface : String → List Socket × List Socket
  builtinInterface : String → List Socket × List Socket
  builtinTypeOf : String → String

/-- INSTANTIATE (operators.py lines 988-1007): a group instance bound to the
shared definition when one of shader kind carries the destination name,
otherwise a built-in node via the registry's constructor mapping; name and
label are set to the destination identity. -/
def instantiateNewShader (fac : NodeFactory) (nodeGroups : List (String × String))
    (target : String) : Node :=
  let isGroup := nodeGroups.any (fun ng => ng.2 == "SHADER" && ng.1 == target)
  if isGroup then
    let iface := fac.groupInterface target
    { name := target, label := target, type := "GROUP", nodeTree := some target,
      inputs := iface.1, outputs := iface.2 }
  else
    let cls := get_shader_class_name target
    let iface := fac.builtinInterface cls
    { name := target, label := target, type := fac.builtinTypeOf cls, nodeTree := none,
      inputs := iface.1, outputs := iface.2 }

/-- One captured incoming link processed against the new node
(operators.py lines 1014-1041). -/
def reconnectInputsStep (newNode : Node) (st : Graph × List Nat)
    (p : String × CapturedIn) : Graph × List Nat :=
  let conn := p.2
  match nodesGet st.1 conn.from_node with
  | none => st
  | some src =>
    let srcIdx : Option Nat :=
      if 0 ≤ conn.from_socket_index && conn.from_socket_index < (src.outputs.length : Int)
      then some conn.from_socket_index.toNat
      else (src.outputs.enum.find? (fun q => q.2.name == conn.from_socket)).map
        (fun q => q.1)
    match srcIdx with
    | none => st
    | some si =>
      match find_best_input_socket newNode p.1 conn.to_socket_type st.2 with
      | some ti => (addLink st.1 ⟨conn.from_node, si, newNode.name, ti⟩, ti :: st.2)
      | none => st

/-- The whole captured-input reconnection loop. -/
def inputPhase (newNode : Node) (pairs : List (String × CapturedIn))
    (st : Graph × List Nat) : Graph × List Nat :=
  pairs.foldl (reconnectInputsStep newNode) st

/-- Generic destination handling of one captured outgoing link
(operators.py lines 1074-1095). -/
def genericOutStep (newNode : Node) (tgt : Node) (sname : String) (conn : CapturedOut)
    (st : Graph × List Nat × Bool) : Graph × List Nat × Bool :=
  let tgtIdx : Option Nat :=
    if 0 ≤ conn.to_socket_index && conn.to_socket_index < (tgt.inputs.length : Int)
    then some conn.to_socket_index.toNat
    else (tgt.inputs.enum.find? (fun q => q.2.name == conn.to_socket)).map (fun q => q.1)
  match tgtIdx with
  | none => st
  | some ti =>
    match find_best_output_socket newNode sname conn.from_socket_type st.2.1 with
    | some si => (addLink st.1 ⟨newNode.name, si, tgt.name, ti⟩, si :: st.2.1, st.2.2)
    | none => st

/-- One captured outgoing link processed against the new node, including the
at-most-once special case for the material output node
(operators.py lines 1048-1095). -/
def reconnectOutputsStep (newNode : Node) (st : Graph × List Nat × Bool)
    (p : String × CapturedOut) : Graph × List Nat × Bool :=
  let conn := p.2
  match nodesGet st.1 conn.to_node with
  | none => st
  | some tgt =>
    if tgt.type == "OUTPUT_MATERIAL" && !st.2.2 then
      match findShaderOutputIdx newNode with
      | some so =>
        match surfaceInputIdxReplace tgt with
        | some si => (addLink st.1 ⟨newNode.name, so, tgt.name, si⟩, so :: st.2.1, true)
        | none => genericOutStep newNode tgt p.1 conn st
      | none => genericOutStep newNode tgt p.1 conn st
    else genericOutStep newNode tgt p.1 conn st

/-- Fallback search for the material output node after all captured output
links have been processed (operators.py lines 1096-1120). -/
def outputFallback (newNode : Node) (st : Graph × List Nat × Bool) : Graph × Bool :=
  if st.2.2 then (st.1, true)
  else
    match st.1.nodes.find? (fun n => n.type == "OUTPUT_MATERIAL") with
    | none => (st.1, false)
    | some outN =>
      match findShaderOutputIdx newNode with
      | some so =>
        match surfaceInputIdxReplace outN with
        | some si => (addLink st.1 ⟨newNode.name, so, outN.name, si⟩, true)
        | none => (st.1, false)
      | none => (st.1, false)

/-- The whole captured-output reconnection loop plus fallback. -/
def outputPhase (newNode : Node) (pairs : List (String × CapturedOut)) (g : Graph) :
    Graph × Bool :=
  outputFallback newNode (pairs.foldl (reconnectOutputsStep newNode) (g, [], false))

/-- One target of the per-target replace cycle
(operators.py lines 928-1126): capture, delete, instantiate, reconnect.
The Bool reports whether the target counted as replaced. -/
def replaceOneShader (fac : NodeFactory) (nodeGroups : List (String × String))
    (autoConnect : Bool) (target : String) (g : Graph) (oldName : String) :
    Graph × Bool :=
  match nodesGet g oldName with
  | none => (g, false)
  | some old =>
    let capturedIns := groupByKey (captureInputs g old)
    let capturedOuts := groupByKey (captureOutputs g old)
    let newNode := instantiateNewShader fac nodeGroups target
    let g1 := removeNode g oldName
    let g2 : Graph := { g1 with nodes := g1.nodes ++ [newNode] }
    let g3 := if autoConnect then (inputPhase newNode (flattenGroups capturedIns) (g2, [])).1
      else g2
    let g4 := if autoConnect then (outputPhase newNode (flattenGroups capturedOuts) g3).1
      else g3
    (g4, true)

/-- The `nodes_connected_to_output` set of `replace_material_shaders`
(operators.py lines 882-885). -/
def connectedToOutputNodes (g : Graph) : List String :=
  g.links.filterMap (fun l =>
    match nodesGet g l.toNode with
    | some toN => if toN.type == "OUTPUT_MATERIAL" then some l.fromNode else none
    | none => none)

/-- LOCATE_TARGETS (operators.py lines 879-920): the list of node names the
replacement loop will visit, by replacement mode. -/
def shadersToReplace (g : Graph) (replaceMode target specific : String) : List String :=
  let connectedToOutput : List String := connectedToOutputNodes g
  if replaceMode == "ALL" || replaceMode == "MATERIAL" then
    g.nodes.filterMap (fun n =>
      if SHADER_NODE_TYPES.contains n.type then some n.name
      else if n.type == "GROUP" then
        match n.nodeTree with
        | some tn =>
          let shouldReplace := n.outputs.any (fun o => o.type == "SHADER")
            || connectedToOutput.contains n.name
            || SHADER_KEYWORDS.any (fun kw => strContains (strLower tn) kw)
          if shouldReplace then (if tn != target then some n.name else none) else none
        | none => none
      else none)
  else if replaceMode == "SPECIFIC" || replaceMode == "MATERIAL_SPECIFIC" then
    g.nodes.filterMap (fun n =>
      if n.type == "GROUP" && n.nodeTree.isSome then
        (if n.nodeTree == some specific then some n.name else none)
      else if n.type == specific then some n.name else none)
  else []

/-- `replace_material_shaders` (operators.py lines 863-1128): locate the
targets, then run the per-target cycle, counting completed replacements. -/
def replace_material_shaders (fac : NodeFactory) (nodeGroups : List (String × String))
    (replaceMode : String) (autoConnect : Bool) (target specific : String) (g : Graph) :
    Graph × Nat :=
  let ts := shadersToReplace g replaceMode target specific
  if ts.isEmpty then (g, 0)
  else ts.foldl (fun acc nm =>
      let r := replaceOneShader fac nodeGroups autoConnect target acc.1 nm
      (r.1, if r.2 then acc.2 + 1 else acc.2)) (g, 0)

/-- One record of the connection snapshot store
(operators.py lines 113-147, properties.py ConnectionSnapshotItem). -/
structure SnapshotRecord where
  material_name : String
  from_node_name : String
  from_node_type : String
  from_socket_name : String
  from_socket_index : Nat
  from_socket_type : String
  to_node_name : String
  to_node_type : String
  to_socket_name : String
  to_socket_index : Nat
  to_socket_type : String
  replace_mode : String
  shader_type : String
deriving Repr, DecidableEq

/-- Index resolution of `_record_connection` (operators.py lines 120-132):
scan the socket sequence and stop at the first entry that is the linked
socket itself (object identity, i.e. the same position) or carries the same
name; default 0. -/
def recordIndex (sockets : List Socket) (idx : Nat) : Nat :=
  match sockets.get? idx with
  | none => 0
  | some s =>
    match sockets.enum.find? (fun p => p.1 == idx || p.2.name == s.name) with
    | some p => p.1
    | none => 0

/-- `_record_connection` (operators.py lines 113-147) for one live link.
The socket `bl_idname` fields are modelled by the socket kind. -/
def recordLink (g : Graph) (matName replaceMode shaderType : String) (l : Link) :
    SnapshotRecord :=
  let fromN := nodesGet g l.fromNode
  let toN := nodesGet g l.toNode
  let fromSock := fromN.bind (fun n => n.outputs.get? l.fromIndex)
  let toSock := toN.bind (fun n => n.inputs.get? l.toIndex)
  { material_name := matName
    from_node_name := match fromN with | some n => n.name | none => ""
    from_node_type := match fromN with | some n => n.type | none => ""
    from_socket_name := match fromSock with | some s => s.name | none => ""
    from_socket_index := match fromN, fromSock with
      | some n, some _ => recordIndex n.outputs l.fromIndex
      | _, _ => 0
    from_socket_type := match fromSock with | some s => s.type | none => ""
    to_node_name := match toN with | some n => n.name | none => ""
    to_node_type := match toN with | some n => n.type | none => ""
    to_socket_name := match toSock with | some s => s.name | none => ""
    to_socket_index := match toN, toSock with
      | some n, some _ => recordIndex n.inputs l.toIndex
      | _, _ => 0
    to_socket_type := match toSock with | some s => s.type | none => ""
    replace_mode := replaceMode
    shader_type := shaderType }

/-- The per-record body of `_restore_connections_from_snapshot`
(operators.py lines 285-309): records of other materials, with empty node
names, with vanished nodes or with out-of-range indices are skipped; every
recreated link counts. -/
def restoreStep (materialName : String) (acc : Graph × Nat) (r : SnapshotRecord) :
    Graph × Nat :=
  if r.material_name != materialName then acc
  else if r.from_node_name == "" || r.to_node_name == "" then acc
  else
    match nodesGet acc.1 r.from_node_name, nodesGet acc.1 r.to_node_name with
    | some fromN, some toN =>
      if r.from_socket_index < fromN.outputs.length
          && r.to_socket_index < toN.inputs.length then
        (addLink acc.1
          ⟨r.from_node_name, r.from_socket_index, r.to_node_name, r.to_socket_index⟩,
          acc.2 + 1)
      else acc
    | _, _ => acc

/-- `_restore_connections_from_snapshot` (operators.py lines 281-310). -/
def restore_connections_from_snapshot (snapshot : List SnapshotRecord) (g : Graph)
    (materialName : String) : Graph × Nat :=
  snapshot.foldl (restoreStep materialName) (g, 0)

/-- A user-authored connection rule (properties.py ConnectionRule). -/
structure ConnectionRule where
  source_match_mode : String
  source_node_label : String
  source_node_type : String
  source_socket_index : Nat
  target_match_mode : String
  target_node_label : String
  target_node_type : String
  target_socket_index : Nat
deriving Repr, DecidableEq

/-- The scene-level settings consumed by the operators
(properties.py ShaderReplacerProperties); pointer properties are modelled
by optional names. -/
structure Props where
  replace_mode : String
  target_type : String
  builtin_shader : String
  shader_nodegroup : Option String
  specific_builtin_shader : String
  specific_nodegroup : Option String
  material_specific_builtin_shader : String
  material_specific_nodegroup : Option String
  target_material : Option String
  auto_connect : Bool
  connection_rules : List ConnectionRule
deriving Repr, DecidableEq

/-- A material datablock. -/
structure Material where
  name : String
  use_nodes : Bool
  graph : Graph
deriving Repr, DecidableEq

/-- A scene object with its material slots (a slot may be empty). -/
structure SceneObject where
  objType : String
  slots : List (Option String)
deriving Repr, DecidableEq

/-- The host state the operators read and mutate: selected objects, the
active collection, the material datablocks, the global node-group registry
(name and tree type), the material cache and the connection snapshot. -/
structure Env where
  selected_objects : List SceneObject
  collection_objects : List SceneObject
  materials : List Material
  node_groups : List (String × String)
  material_cache : List (String × Nat)
  connection_snapshot : List SnapshotRecord
deriving Repr, DecidableEq

def findMaterial (env : Env) (nm : String) : Option Material :=
  env.materials.find? (fun m => m.name == nm)

def updateMaterialGraph (env : Env) (nm : String) (g : Graph) : Env :=
  let ms := env.materials.map (fun m => if m.name == nm then { m with graph := g } else m)
  { env with materials := ms }

/-- `get_shader_types_to_disconnect` = `get_shader_types_to_reconnect`
(operators.py lines 89-111 and 257-279). -/
def get_shader_types_for_scope (props : Props) : List String :=
  if props.replace_mode == "SPECIFIC" then
    (if props.specific_builtin_shader != "" && props.specific_builtin_shader != "NONE"
     then [props.specific_builtin_shader] else [])
      ++ (match props.specific_nodegroup with
          | some n => if n != "" then ["GROUP:" ++ n] else []
          | none => [])
  else if props.replace_mode == "MATERIAL_SPECIFIC" then
    (if props.material_specific_builtin_shader != ""
        && props.material_specific_builtin_shader != "NONE"
     then [props.material_specific_builtin_shader] else [])
      ++ (match props.material_specific_nodegroup with
          | some n => if n != "" then ["GROUP:" ++ n] else []
          | none => [])
  else if props.replace_mode == "MATERIAL" then
    if props.target_material.isSome then ["ALL"] else []
  else ["ALL"]

/-- The `should_process` test shared by the disconnect and reconnect loops
(operators.py lines 182-189 and 339-345): in the material-restricted modes
with a chosen target material, only the material of that name passes. -/
def materialShouldProcess (props : Props) (matName : String) : Bool :=
  if props.replace_mode == "MATERIAL" || props.replace_mode == "MATERIAL_SPECIFIC" then
    match props.target_material with
    | some t => matName == t
    | none => true
  else true

/-- Does one shader-type filter entry match either endpoint of the link
(operators.py lines 204-217)? -/
def linkMatchesShaderType (g : Graph) (st : String) (l : Link) : Bool :=
  if strStartsWith st "GROUP:" then
    let groupName : String := ⟨st.data.drop 6⟩
    (match nodesGet g l.fromNode with
     | some n => n.type == "GROUP" && n.nodeTree == some groupName
     | none => false)
      || (match nodesGet g l.toNode with
          | some n => n.type == "GROUP" && n.nodeTree == some groupName
          | none => false)
  else
    (match nodesGet g l.fromNode with
     | some n => n.type == st
     | none => false)
      || (match nodesGet g l.toNode with
          | some n => n.type == st
          | none => false)

def shouldRemoveLink (g : Graph) (shaderTypes : List String) (l : Link) : Bool :=
  shaderTypes.any (fun st => linkMatchesShaderType g st l)

/-- The link list a disconnect pass removes for one material; as in the
source, the list of links to record is the very same list
(operators.py lines 191-221). -/
def disconnectLinksToRemove (g : Graph) (shaderTypes : List String) : List Link :=
  if shaderTypes.contains "ALL" then g.links
  else g.links.filter (shouldRemoveLink g shaderTypes)

/-- The per-material body of `MATERIAL_OT_disconnect_all_connections.execute`
(operators.py lines 176-236), returning the updated material graph, the
appended snapshot records and the removed-link count. -/
def disconnectMaterial (props : Props) (shaderTypes : List String) (mat : Material) :
    Graph × List SnapshotRecord × Nat :=
  let toRemove := disconnectLinksToRemove mat.graph shaderTypes
  let toRecord := toRemove
  let stStr := if shaderTypes.isEmpty then "ALL" else String.intercalate "," shaderTypes
  let recs := toRecord.map (recordLink mat.graph mat.name props.replace_mode stStr)
  let keptLinks :=
    if shaderTypes.contains "ALL" then []
    else mat.graph.links.filter (fun l => !(shouldRemoveLink mat.graph shaderTypes l))
  let g' : Graph := { mat.graph with links := keptLinks }
  (g', recs, toRemove.length)

/-- `MATERIAL_OT_disconnect_all_connections.execute`
(operators.py lines 154-248).  The Bool is false on the CANCELLED paths. -/
def disconnectExecute (props : Props) (env : Env) : Env × Nat × Bool :=
  if env.selected_objects.isEmpty then (env, 0, false)
  else
    let shaderTypes := get_shader_types_for_scope props
    if props.replace_mode == "MATERIAL" && props.target_material.isNone then (env, 0, false)
    else
      let env1 : Env := { env with connection_snapshot := [] }
      let r := env.selected_objects.foldl (fun acc obj =>
        if obj.objType == "MESH" then
          obj.slots.foldl (fun a2 slotM =>
            match slotM with
            | none => a2
            | some mname =>
              match findMaterial a2.1 mname with
              | none => a2
              | some mat =>
                if mat.use_nodes then
                  if materialShouldProcess props mat.name then
                    let d := disconnectMaterial props shaderTypes mat
                    ({ updateMaterialGraph a2.1 mat.name d.1 with
                        connection_snapshot := a2.1.connection_snapshot ++ d.2.1 },
                      a2.2 + d.2.2)
                  else a2
                else a2) acc
        else acc) (env1, 0)
      (r.1, r.2, true)

/-- `NODE_TYPE_NAMES` (node_config.py lines 307-424): type identifier to
localized display name, in source order (later duplicate display names win
in the reverse mapping, as with a Python dict comprehension). -/
def NODE_TYPE_NAMES : List (String × String) :=
  [ ("BSDF_PRINCIPLED", "原理化BSDF"),
    ("BSDF_DIFFUSE", "漫射BSDF"),
    ("BSDF_GLOSSY", "光泽BSDF"),
    ("BSDF_TRANSPARENT", "透明BSDF"),
    ("BSDF_GLASS", "玻璃BSDF"),
    ("BSDF_TRANSLUCENT", "半透明BSDF"),
    ("BSDF_ANISOTROPIC", "各向异性BSDF"),
    ("BSDF_VELVET", "天鹅绒BSDF"),
    ("BSDF_REFRACTION", "折射BSDF"),
    ("BSDF_TOON", "卡通BSDF"),
    ("BSDF_SHEEN", "光泽BSDF"),
    ("BSDF_HAIR", "毛发BSDF"),
    ("BSDF_HAIR_PRINCIPLED", "原理化毛发BSDF"),
    ("SUBSURFACE_SCATTERING", "次表面散射"),
    ("EMISSION", "自发光"),
    ("VOLUME_ABSORPTION", "体积吸收"),
    ("VOLUME_SCATTER", "体积散射"),
    ("VOLUME_PRINCIPLED", "原理化体积"),
    ("EEVEE_SPECULAR", "Eevee高光"),
    ("ADD_SHADER", "混合着色器(相加)"),
    ("MIX_SHADER", "混合着色器"),
    ("HOLDOUT", "阻隔"),
    ("BACKGROUND", "背景"),
    ("TEX_IMAGE", "图像纹理"),
    ("TEX_ENVIRONMENT", "环境纹理"),
    ("TEX_SKY", "天空纹理"),
    ("TEX_NOISE", "噪波纹理"),
    ("TEX_VORONOI", "沃罗诺伊纹理"),
    ("TEX_MUSGRAVE", "Musgrave纹理"),
    ("TEX_WAVE", "波浪纹理"),
    ("TEX_MAGIC", "魔法纹理"),
    ("TEX_CHECKER", "棋盘格纹理"),
    ("TEX_BRICK", "砖块纹理"),
    ("TEX_GRADIENT", "渐变纹理"),
    ("TEX_POINTDENSITY", "点密度"),
    ("TEX_IES", "IES纹理"),
    ("TEX_WHITE_NOISE", "白噪波纹理"),
    ("TEX_GABOR", "Gabor纹理"),
    ("MIX", "混合"),
    ("MIX_RGB", "混合RGB"),
    ("CURVE_RGB", "RGB曲线"),
    ("CURVE_VEC", "矢量曲线"),
    ("INVERT", "反转"),
    ("HUE_SAT", "色相/饱和度"),
    ("GAMMA", "伽马"),
    ("BRIGHTCONTRAST", "亮度/对比度"),
    ("LIGHT_FALLOFF", "灯光衰减"),
    ("BUMP", "凹凸"),
    ("NORMAL", "法向"),
    ("NORMAL_MAP", "法向贴图"),
    ("DISPLACEMENT", "置换"),
    ("VECTOR_DISPLACEMENT", "矢量置换"),
    ("MAPPING", "映射"),
    ("VECT_TRANSFORM", "矢量变换"),
    ("VECTOR_ROTATE", "矢量旋转"),
    ("VECTOR_MATH", "矢量运算"),
    ("VALTORGB", "颜色渐变"),
    ("RGBTOBW", "RGB转BW"),
    ("SEPARATE_COLOR", "分离颜色"),
    ("COMBINE_COLOR", "合并颜色"),
    ("SEPRGB", "分离RGB"),
    ("COMBRGB", "合并RGB"),
    ("SEPXYZ", "分离XYZ"),
    ("COMBXYZ", "合并XYZ"),
    ("SEPHSV", "分离HSV"),
    ("COMBHSV", "合并HSV"),
    ("WAVELENGTH", "波长"),
    ("BLACKBODY", "黑体"),
    ("TEX_COORD", "纹理坐标"),
    ("UVMAP", "UV贴图"),
    ("GEOMETRY", "几何数据"),
    ("OBJECT_INFO", "物体信息"),
    ("PARTICLE_INFO", "粒子信息"),
    ("HAIR_INFO", "毛发信息"),
    ("POINT_INFO", "点信息"),
    ("VOLUME_INFO", "体积信息"),
    ("ATTRIBUTE", "属性"),
    ("TANGENT", "切向"),
    ("LAYER_WEIGHT", "层权重"),
    ("FRESNEL", "菲涅尔"),
    ("AMBIENT_OCCLUSION", "环境光遮蔽"),
    ("BEVEL", "倒角"),
    ("WIREFRAME", "线框"),
    ("VALUE", "数值"),
    ("RGB", "RGB"),
    ("VERTEX_COLOR", "顶点颜色"),
    ("CAMERA", "相机数据"),
    ("LIGHT_PATH", "光程"),
    ("OUTPUT_MATERIAL", "材质输出"),
    ("OUTPUT_WORLD", "世界输出"),
    ("OUTPUT_LIGHT", "灯光输出"),
    ("OUTPUT_AOV", "AOV输出"),
    ("MATH", "数学运算"),
    ("CLAMP", "钳制"),
    ("MAP_RANGE", "映射范围"),
    ("GROUP", "节点组"),
    ("GROUP_INPUT", "组输入"),
    ("GROUP_OUTPUT", "组输出"),
    ("FRAME", "框架"),
    ("REROUTE", "重定向"),
    ("SCRIPT", "OSL脚本") ]

/-- `NODE_TYPE_NAMES_REVERSE` lookup (node_config.py line 427): the last
pair with the display name wins, as in the dict comprehension. -/
def nodeTypeNamesReverseLookup (display : String) : Option String :=
  (NODE_TYPE_NAMES.reverse.find? (fun p => p.2 == display)).map (fun p => p.1)

/-- `match_node_by_label_or_name` (node_config.py lines 573-589). -/
def match_node_by_label_or_name (n : Node) (targetName : String) : Bool :=
  if targetName == "" then false
  else
    let tl := strStrip (strLower targetName)
    (n.label != "" && strStrip (strLower n.label) == tl)
      || strStrip (strLower n.name) == tl
      || (n.label != "" && strContains (strLower n.label) tl)
      || strContains (strLower n.name) tl

/-- `match_node_by_type` (node_config.py lines 592-610). -/
def match_node_by_type (n : Node) (targetType : String) : Bool :=
  if targetType == "" then false
  else if n.type == targetType then true
  else if targetType == "GROUP" && n.type == "GROUP" then true
  else
    match nodeTypeNamesReverseLookup targetType with
    | some eng => n.type == eng
    | none => false

/-- Source-node resolution of one connection rule
(operators.py lines 356-365). -/
def ruleSourceNodes (g : Graph) (rule : ConnectionRule) : List Node :=
  if rule.source_match_mode == "LABEL" then
    if rule.source_node_label != "" then
      g.nodes.filter (fun n => match_node_by_label_or_name n rule.source_node_label)
    else []
  else
    if rule.source_node_type != "" && !(strStartsWith rule.source_node_type "__") then
      g.nodes.filter (fun n => match_node_by_type n rule.source_node_type)
    else []

/-- Target-node resolution of one connection rule
(operators.py lines 367-375). -/
def ruleTargetNodes (g : Graph) (rule : ConnectionRule) : List Node :=
  if rule.target_match_mode == "LABEL" then
    if rule.target_node_label != "" then
      g.nodes.filter (fun n => match_node_by_label_or_name n rule.target_node_label)
    else []
  else
    if rule.target_node_type != "" && !(strStartsWith rule.target_node_type "__") then
      g.nodes.filter (fun n => match_node_by_type n rule.target_node_type)
    else []

/-- Application of one rule over all source-target pairs
(operators.py lines 377-392). -/
def applyRule (g : Graph) (rule : ConnectionRule) : Graph × Nat :=
  (ruleSourceNodes g rule).foldl (fun acc s =>
    (ruleTargetNodes g rule).foldl (fun a2 t =>
      if s == t then a2
      else if rule.source_socket_index < s.outputs.length
          && rule.target_socket_index < t.inputs.length then
        (addLink a2.1 ⟨s.name, rule.source_socket_index, t.name, rule.target_socket_index⟩,
          a2.2 + 1)
      else a2) acc) (g, 0)

/-- Result of `MATERIAL_OT_reconnect_with_rules.execute`; `processed` is the
order in which distinct materials were processed. -/
structure ReconnectResult where
  env : Env
  autoCount : Nat
  ruleCount : Nat
  restoredCount : Nat
  processed : List String
deriving Repr, DecidableEq

/-- `MATERIAL_OT_reconnect_with_rules.execute` (operators.py lines 312-412):
each distinct material name is processed at most once; processing runs
auto-connection (when enabled), then every rule, then snapshot restoration
(when a snapshot exists). -/
def reconnectExecute (props : Props) (env : Env) : ReconnectResult :=
  if env.selected_objects.isEmpty then ⟨env, 0, 0, 0, []⟩
  else
    let hasSnapshot := !env.connection_snapshot.isEmpty
    env.selected_objects.foldl (fun acc obj =>
      if obj.objType == "MESH" then
        obj.slots.foldl (fun a2 slotM =>
          match slotM with
          | none => a2
          | some mname =>
            match findMaterial a2.env mname with
            | none => a2
            | some mat =>
              if mat.use_nodes then
                if a2.processed.contains mat.name then a2
                else
                  if materialShouldProcess props mat.name then
                    let r1 := if props.auto_connect then
                        apply_auto_connections mat.graph props.auto_connect
                      else (mat.graph, 0)
                    let r2 := props.connection_rules.foldl (fun a3 rule =>
                        let rr := applyRule a3.1 rule
                        (rr.1, a3.2 + rr.2)) (r1.1, 0)
                    let r3 := if hasSnapshot then
                        restore_connections_from_snapshot a2.env.connection_snapshot
                          r2.1 mat.name
                      else (r2.1, 0)
                    { env := updateMaterialGraph a2.env mat.name r3.1
                      autoCount := a2.autoCount + r1.2
                      ruleCount := a2.ruleCount + r2.2
                      restoredCount := a2.restoredCount + r3.2
                      processed := a2.processed ++ [mat.name] }
                  else a2
              else a2) acc
      else acc) ⟨env, 0, 0, 0, []⟩

/-- Destination resolution of the batch-replace operator
(operators.py lines 661-668): built-in selection wins over the node group. -/
def resolveTargetShaderName (props : Props) : String :=
  if props.builtin_shader != "" && props.builtin_shader != "NONE" then props.builtin_shader
  else
    match props.shader_nodegroup with
    | some n => n
    | none => ""

/-- SPECIFIC-mode node-to-replace resolution (operators.py lines 687-694). -/
def resolveSpecificShaderName (props : Props) : String :=
  if props.specific_builtin_shader != "" && props.specific_builtin_shader != "NONE" then
    props.specific_builtin_shader
  else
    match props.specific_nodegroup with
    | some n => n
    | none => ""

/-- MATERIAL_SPECIFIC-mode node-to-replace resolution
(operators.py lines 745-749). -/
def resolveMaterialSpecificShaderName (props : Props) : String :=
  if props.material_specific_builtin_shader != ""
      && props.material_specific_builtin_shader != "NONE" then
    props.material_specific_builtin_shader
  else
    match props.material_specific_nodegroup with
    | some n => n
    | none => ""

/-- `get_target_objects` (operators.py lines 851-861). -/
def get_target_objects (props : Props) (env : Env) : List SceneObject :=
  if props.target_type == "OBJECTS" then env.selected_objects
  else if props.target_type == "COLLECTION" then env.collection_objects
  else []

def cacheHas (cache : List (String × Nat)) (nm : String) : Bool :=
  cache.any (fun p => p.1 == nm)

def cacheGet (cache : List (String × Nat)) (nm : String) : Nat :=
  match cache.find? (fun p => p.1 == nm) with
  | some p => p.2
  | none => 0

def cacheMark (cache : List (String × Nat)) (nm : String) (v : Nat) :
    List (String × Nat) :=
  (nm, v) :: cache

/-- `MATERIAL_OT_batch_replace_shader.execute` (operators.py lines 655-828).
The String result is FINISHED or CANCELLED; every CANCELLED path returns
the environment untouched, since the validations precede the cache clear
and every graph mutation. -/
def executeBatchReplace (fac : NodeFactory) (props : Props) (env : Env) :
    String × Env × Nat :=
  let target := resolveTargetShaderName props
  if target == "" then ("CANCELLED", env, 0)
  else
    let ngExists := env.node_groups.any (fun ng => ng.2 == "SHADER" && ng.1 == target)
    if !ngExists && !(is_valid_builtin_shader target) then ("CANCELLED", env, 0)
    else
      let specific := if props.replace_mode == "SPECIFIC" then
          resolveSpecificShaderName props
        else ""
      if props.replace_mode == "SPECIFIC" && specific == "" then ("CANCELLED", env, 0)
      else if props.replace_mode == "MATERIAL" then
        match props.target_material with
        | none => ("CANCELLED", env, 0)
        | some mname =>
          match findMaterial env mname with
          | none => ("CANCELLED", env, 0)
          | some mat =>
            if !mat.use_nodes then ("CANCELLED", env, 0)
            else
              let env1 : Env := { env with material_cache := [] }
              let r := replace_material_shaders fac env.node_groups props.replace_mode
                props.auto_connect target "" mat.graph
              ("FINISHED", updateMaterialGraph env1 mname r.1, r.2)
      else if props.replace_mode == "MATERIAL_SPECIFIC" then
        match props.target_material with
        | none => ("CANCELLED", env, 0)
        | some mname =>
          match findMaterial env mname with
          | none => ("CANCELLED", env, 0)
          | some mat =>
            if !mat.use_nodes then ("CANCELLED", env, 0)
            else
              let mspec := resolveMaterialSpecificShaderName props
              let env1 : Env := { env with material_cache := [] }
              let r := replace_material_shaders fac env.node_groups props.replace_mode
                props.auto_connect target mspec mat.graph
              ("FINISHED", updateMaterialGraph env1 mname r.1, r.2)
      else
        let tobjs := get_target_objects props env
        if tobjs.isEmpty then ("CANCELLED", env, 0)
        else
          let env1 : Env := { env with material_cache := [] }
          let r := tobjs.foldl (fun acc obj =>
            if obj.objType == "MESH" then
              obj.slots.foldl (fun a2 slotM =>
                match slotM with
                | none => a2
                | some mname =>
                  match findMaterial a2.1 mname with
                  | none => a2
                  | some mat =>
                    if mat.use_nodes then
                      if cacheHas a2.1.material_cache mat.name then
                        let res := cacheGet a2.1.material_cache mat.name
                        (a2.1, if 0 < res then a2.2 + res else a2.2)
                      else
                        let rr := replace_material_shaders fac a2.1.node_groups
                          props.replace_mode props.auto_connect target specific mat.graph
                        let envA := updateMaterialGraph a2.1 mat.name rr.1
                        let envB : Env := { envA with
                          material_cache := cacheMark envA.material_cache mat.name rr.2 }
                        (envB, if 0 < rr.2 then a2.2 + rr.2 else a2.2)
                    else a2) acc
            else acc) (env1, 0)
          ("FINISHED", r.1, r.2)

/-- A graph whose links all resolve cleanly for the snapshot round trip:
every link's endpoints exist, its indices are in range, its node names are
non-empty, and each linked socket is the first socket of its name on its
side of the node (so `recordIndex` reproduces the positional index). -/
def linksRestorable (g : Graph) : Bool :=
  g.links.all (fun l =>
    (l.fromNode != "") && (l.toNode != "")
      && (match nodesGet g l.fromNode, nodesGet g l.toNode with
          | some fn, some tn =>
            decide (l.fromIndex < fn.outputs.length)
              && decide (l.toIndex < tn.inputs.length)
              && (recordIndex fn.outputs l.fromIndex == l.fromIndex)
              && (recordIndex tn.inputs l.toIndex == l.toIndex)
          | _, _ => false))

/-- Does a snapshot record pass every skip test of
`_restore_connections_from_snapshot` against the given graph? -/
def snapshotRecordResolves (g : Graph) (materialName : String) (r : SnapshotRecord) :
    Bool :=
  (r.material_name == materialName)
    && (r.from_node_name != "") && (r.to_node_name != "")
    && (match nodesGet g r.from_node_name, nodesGet g r.to_node_name with
        | some fn, some tn =>
          decide (r.from_socket_index < fn.outputs.length)
            && decide (r.to_socket_index < tn.inputs.length)
        | _, _ => false)

/-- The Principled BSDF input interface used by the concrete host model. -/
def principledInputs : List Socket :=
  [ ⟨"Base Color", "RGBA"⟩, ⟨"Metallic", "VALUE"⟩, ⟨"Roughness", "VALUE"⟩,
    ⟨"IOR", "VALUE"⟩, ⟨"Alpha", "VALUE"⟩, ⟨"Normal", "VECTOR"⟩ ]

/-- A concrete host factory: a Principled BSDF node with the usual sockets,
a single shader output for every other construction, and the type tag read
back from the constructor mapping. -/
def facHost : NodeFactory :=
  { groupInterface := fun _ => ([], [⟨"Shader", "SHADER"⟩])
    builtinInterface := fun cls =>
      if cls == "ShaderNodeBsdfPrincipled" then (principledInputs, [⟨"BSDF", "SHADER"⟩])
      else ([], [⟨"BSDF", "SHADER"⟩])
    builtinTypeOf := fun cls =>
      match SHADER_TYPE_TO_CLASS.find? (fun p => p.2 == cls) with
      | some p => p.1
      | none => "UNKNOWN" }

/-- A material containing a single Principled BSDF node. -/
def exC1 : Graph :=
  ⟨[⟨"Principled BSDF", "", "BSDF_PRINCIPLED", none, principledInputs,
    [⟨"BSDF", "SHADER"⟩]⟩], []⟩

/-- A material whose only qualifying node is a group bound to the
destination definition. -/
def exC1W : Graph :=
  ⟨[⟨"Group", "", "GROUP", some "MyShader", [], [⟨"Shader", "SHADER"⟩]⟩], []⟩

/-- A diffuse shader wired into a material output node. -/
def exC2 : Graph :=
  ⟨[ ⟨"Diffuse BSDF", "", "BSDF_DIFFUSE", none,
       [⟨"Color", "RGBA"⟩, ⟨"Roughness", "VALUE"⟩, ⟨"Normal", "VECTOR"⟩],
       [⟨"BSDF", "SHADER"⟩]⟩,
     ⟨"Material Output", "", "OUTPUT_MATERIAL", none,
       [⟨"Surface", "SHADER"⟩, ⟨"Volume", "SHADER"⟩, ⟨"Displacement", "VECTOR"⟩],
       []⟩ ],
   [⟨"Diffuse BSDF", 0, "Material Output", 0⟩]⟩

/-- An emission shader feeding the second of two same-named inputs of a mix
shader: the snapshot records the index of the first input carrying the
name, not the linked one. -/
def exC3graph : Graph :=
  ⟨[ ⟨"A", "", "EMISSION", none, [⟨"Color", "RGBA"⟩, ⟨"Strength", "VALUE"⟩],
       [⟨"Emission", "SHADER"⟩]⟩,
     ⟨"M", "", "MIX_SHADER", none,
       [⟨"Fac", "VALUE"⟩, ⟨"Shader", "SHADER"⟩, ⟨"Shader", "SHADER"⟩],
       [⟨"Shader", "SHADER"⟩]⟩ ],
   [⟨"A", 0, "M", 2⟩]⟩

def exC3env : Env :=
  ⟨[⟨"MESH", [some "M1"]⟩], [], [⟨"M1", true, exC3graph⟩], [], [], []⟩

/-- Settings with ALL scope and auto-connect disabled. -/
def propsAllNoAuto : Props :=
  { replace_mode := "ALL", target_type := "OBJECTS", builtin_shader := "NONE",
    shader_nodegroup := none, specific_builtin_shader := "NONE",
    specific_nodegroup := none, material_specific_builtin_shader := "NONE",
    material_specific_nodegroup := none, target_material := none,
    auto_connect := false, connection_rules := [] }

/-- Settings with ALL scope and auto-connect enabled. -/
def propsAllAuto : Props :=
  { propsAllNoAuto with auto_connect := true }

/-- Settings whose destination shader does not resolve. -/
def propsNoTarget : Props :=
  { propsAllAuto with builtin_shader := "NONE", shader_nodegroup := none }

/-- A one-object environment around the diffuse material. -/
def exC2env : Env :=
  ⟨[⟨"MESH", [some "Mat"]⟩], [], [⟨"Mat", true, exC2⟩], [], [], []⟩

/-! Shared helper lemmas. -/

theorem foldl_invariant {α β : Type} (P : α → Prop) (step : α → β → α)
    (hstep : ∀ a b, P a → P (step a b)) :
    ∀ (l : List β) (s : α), P s → P (l.foldl step s) := by
  intro l
  induction l with
  | nil => intro s hs; exact hs
  | cons hd tl ih => intro s hs; exact ih (step s hd) (hstep s hd hs)

theorem mem_enum_get? {α : Type} {l : List α} {i : Nat} {x : α} :
    (i, x) ∈ l.enum ↔ l.get? i = some x := by
  rw [List.mem_enum_iff_getElem?, List.get?_eq_getElem?]

theorem tblLookup_eq_zero (t : List ((String × String) × Nat)) (q : String × String)
    (h : q ∉ t.map Prod.fst) : tblLookup t q = 0 := by
  induction t with
  | nil => rfl
  | cons hd tl ih =>
    obtain ⟨k, v⟩ := hd
    simp only [List.map_cons, List.mem_cons, not_or] at h
    simp only [tblLookup, if_neg h.1]
    exact ih h.2

/-- Claim C7: the socket semantics classifier lower-cases its input and
tests the keyword groups in the fixed priority order, base color first and
generic color last, returning the category of the first matching group and
UNKNOWN when none matches; so "Base Color" classifies as COLOR and a name
matching an earlier group and generic color gets the earlier category. -/
theorem msr_c7 :
    (∀ name, get_socket_semantic name = firstMatchingGroup name)
      ∧ get_socket_semantic "Base Color" = "COLOR"
      ∧ get_socket_semantic "Emission Color" = "EMISSION"
      ∧ get_socket_semantic "Specular Color" = "SPECULAR"
      ∧ get_socket_semantic "zzz" = "UNKNOWN" := by
  refine ⟨fun name => ?_, by decide, by decide, by decide, by decide⟩
  simp only [get_socket_semantic, firstMatchingGroup, firstGroupAux, semanticPriorityGroups,
    List.any_cons, List.any_nil, Bool.or_false]

/-- Claim C8: semantic compatibility returns 100 on identical semantics,
the fixed table value on the listed ordered pairs, 0 on every unlisted
ordered pair, and is not symmetric: COLOR to EMISSION is 80 while EMISSION
to COLOR is 0.  The embedding is a pure function, so it has no side
effects. -/
theorem msr_c8 :
    (∀ a b : String, a = b → are_semantically_compatible a b = 100)
      ∧ are_semantically_compatible "COLOR" "EMISSION" = 80
      ∧ are_semantically_compatible "ROUGHNESS" "SPECULAR" = 60
      ∧ are_semantically_compatible "AO" "ROUGHNESS" = 40
      ∧ are_semantically_compatible "AO" "SPECULAR" = 40
      ∧ (∀ a b : String, a ≠ b → (a, b) ∉ semanticCompatTable.map Prod.fst →
          are_semantically_compatible a b = 0)
      ∧ are_semantically_compatible "EMISSION" "COLOR" = 0 := by
  refine ⟨fun a b h => ?_, by decide, by decide, by decide, by decide,
    fun a b hne hnm => ?_, by decide⟩
  · subst h; simp [are_semantically_compatible]
  · simp only [are_semantically_compatible, if_neg hne]
    exact tblLookup_eq_zero _ _ hnm

/-- Closed instantiation of the compatibility theorem at concrete
semantics. -/
theorem msr_c8_witness :
    are_semantically_compatible "NORMAL" "NORMAL" = 100
      ∧ are_semantically_compatible "ALPHA" "COLOR" = 0 :=
  ⟨msr_c8.1 "NORMAL" "NORMAL" rfl,
   msr_c8.2.2.2.2.2.1 "ALPHA" "COLOR" (by decide) (by decide)⟩

theorem findShaderOutputIdx_none_of_empty (n : Node) (h : n.outputs = []) :
    findShaderOutputIdx n = none := by
  simp [findShaderOutputIdx, h]

theorem outputs_ne_empty_of_findShaderOutputIdx (n : Node) (so : Nat)
    (h : findShaderOutputIdx n = some so) : n.outputs.isEmpty = false := by
  cases he : n.outputs.isEmpty
  · rfl
  · rw [List.isEmpty_iff] at he
    rw [findShaderOutputIdx_none_of_empty n he] at h
    cases h

theorem findShaderOutputIdx_isSome_of_ne_empty (n : Node) (h : n.outputs.isEmpty = false) :
    ∃ so, findShaderOutputIdx n = some so := by
  unfold findShaderOutputIdx
  cases hf : (n.outputs.enum.find? (fun p => p.2.type == "SHADER")).map (fun p => p.1) with
  | some i => exact ⟨i, rfl⟩
  | none => exact ⟨0, by simp [h]⟩

/-- Claim C6: the shader-to-output sub-pass creates at most one link; every
link it creates targets the output node and originates from the first
shader node of the iteration order that has any output at all, so no
shader node after the first successful connection is linked to the output
node by this pass. -/
theorem msr_c6 (outN : Node) (g : Graph) (shaders : List Node) :
    (pass1 outN g shaders).2 ≤ 1
      ∧ ∃ added, (pass1 outN g shaders).1.links = g.links ++ added
          ∧ added.length = (pass1 outN g shaders).2
          ∧ ∀ l ∈ added, l.toNode = outN.name
              ∧ some l.fromNode = (shaders.find? (fun n => !n.outputs.isEmpty)).map Node.name := by
  induction shaders with
  | nil => exact ⟨by simp [pass1], [], by simp [pass1], by simp [pass1], by simp⟩
  | cons sn rest ih =>
    cases h1 : findShaderOutputIdx sn with
    | none =>
      have hemp : sn.outputs.isEmpty = true := by
        cases he : sn.outputs.isEmpty
        · obtain ⟨so, hso⟩ := findShaderOutputIdx_isSome_of_ne_empty sn he
          rw [hso] at h1
          cases h1
        · rfl
      have hfind : (sn :: rest).find? (fun n => !n.outputs.isEmpty)
          = rest.find? (fun n => !n.outputs.isEmpty) := by
        rw [List.find?_cons_of_neg]
        simp [hemp]
      have hp : pass1 outN g (sn :: rest) = pass1 outN g rest := by
        simp [pass1, h1]
      rw [hp, hfind]
      exact ih
    | some so =>
      have hne := outputs_ne_empty_of_findShaderOutputIdx sn so h1
      have hfind : (sn :: rest).find? (fun n => !n.outputs.isEmpty) = some sn := by
        rw [List.find?_cons_of_pos]
        simp [hne]
      cases h2 : surfaceInputIdxAuto outN with
      | none =>
        have hp : pass1 outN g (sn :: rest) = (g, 0) := by simp [pass1, h1, h2]
        rw [hp]
        exact ⟨by simp, [], by simp, by simp, by simp⟩
      | some si =>
        have hp : pass1 outN g (sn :: rest)
            = (addLink g ⟨sn.name, so, outN.name, si⟩, 1) := by simp [pass1, h1, h2]
        rw [hp, hfind]
        refine ⟨by simp, [⟨sn.name, so, outN.name, si⟩], by simp [addLink], by simp, ?_⟩
        intro l hl
        simp only [List.mem_singleton] at hl
        subst hl
        exact ⟨rfl, rfl⟩

/-- Claim C5: processing an image texture with two outputs against a shader
node with no ALPHA-classified input creates at most one link from that
texture to that shader, always from the colour output (index 0) and never
from the alpha output; the alpha link is gated on `hasAlphaInput`. -/
theorem msr_c5 (shader tex : Node) (g : Graph) (c : Nat) (connected : List Nat)
    (htype : tex.type = "TEX_IMAGE") (hlen : tex.outputs.length = 2)
    (halpha : hasAlphaInput shader = false) :
    ∃ added, (texStep shader (hasAlphaInput shader) (g, c, connected) tex).1.links
        = g.links ++ added
      ∧ added.length ≤ 1
      ∧ ∀ l ∈ added, l.fromNode = tex.name ∧ l.toNode = shader.name ∧ l.fromIndex = 0 := by
  have hne : tex.outputs.isEmpty = false := by
    cases ho : tex.outputs with
    | nil => rw [ho] at hlen; simp at hlen
    | cons a tl => simp [ho]
  have hstep : texStep shader (hasAlphaInput shader) (g, c, connected) tex
      = texImageStep shader (hasAlphaInput shader) tex (g, c, connected) := by
    simp [texStep, hne, htype]
  rw [hstep]
  unfold texImageStep
  rw [halpha]
  simp only [Bool.false_and, if_neg (by decide : ¬(false = true)), hne,
    Bool.false_eq_true, if_false]
  cases hct : texImageColorTarget shader connected with
  | none =>
    exact ⟨[], by simp, by simp, by simp⟩
  | some ti =>
    refine ⟨[⟨tex.name, 0, shader.name, ti⟩], by simp [addLink], by simp, ?_⟩
    intro l hl
    simp only [List.mem_singleton] at hl
    subst hl
    exact ⟨rfl, rfl, rfl⟩

/-- Closed instantiation of the alpha-gating theorem on a concrete emission
shader (no ALPHA input) and a two-output image texture. -/
theorem msr_c5_witness :
    ∃ added,
      (texStep ⟨"S", "", "EMISSION", none, [⟨"Color", "RGBA"⟩, ⟨"Strength", "VALUE"⟩],
          [⟨"Emission", "SHADER"⟩]⟩
        (hasAlphaInput ⟨"S", "", "EMISSION", none,
          [⟨"Color", "RGBA"⟩, ⟨"Strength", "VALUE"⟩], [⟨"Emission", "SHADER"⟩]⟩)
        (exC1, 0, [])
        ⟨"T", "", "TEX_IMAGE", none, [], [⟨"Color", "RGBA"⟩, ⟨"Alpha", "VALUE"⟩]⟩).1.links
        = exC1.links ++ added
      ∧ added.length ≤ 1
      ∧ ∀ l ∈ added, l.fromNode = "T" ∧ l.toNode = "S" ∧ l.fromIndex = 0 :=
  msr_c5 ⟨"S", "", "EMISSION", none, [⟨"Color", "RGBA"⟩, ⟨"Strength", "VALUE"⟩],
      [⟨"Emission", "SHADER"⟩]⟩
    ⟨"T", "", "TEX_IMAGE", none, [], [⟨"Color", "RGBA"⟩, ⟨"Alpha", "VALUE"⟩]⟩
    exC1 0 [] (by decide) (by decide) (by decide)

theorem argmax_foldl (cs : List (Nat × Nat)) (c : Nat × Nat) :
    (cs.foldl (fun b x => if b.2 < x.2 then x else b) c = c
        ∨ cs.foldl (fun b x => if b.2 < x.2 then x else b) c ∈ cs)
      ∧ c.2 ≤ (cs.foldl (fun b x => if b.2 < x.2 then x else b) c).2
      ∧ ∀ x ∈ cs, x.2 ≤ (cs.foldl (fun b x => if b.2 < x.2 then x else b) c).2 := by
  induction cs generalizing c with
  | nil => simp
  | cons hd tl ih =>
    simp only [List.foldl_cons]
    by_cases h : c.2 < hd.2
    · rw [if_pos h]
      obtain ⟨hm, hle, hall⟩ := ih hd
      refine ⟨?_, le_trans (le_of_lt h) hle, ?_⟩
      · rcases hm with hm | hm
        · right; rw [hm]; exact List.mem_cons_self _ _
        · right; exact List.mem_cons_of_mem _ hm
      · intro x hx
        rcases List.mem_cons.mp hx with hx | hx
        · subst hx; exact hle
        · exact hall x hx
    · rw [if_neg h]
      obtain ⟨hm, hle, hall⟩ := ih c
      refine ⟨?_, hle, ?_⟩
      · rcases hm with hm | hm
        · left; exact hm
        · right; exact List.mem_cons_of_mem _ hm
      · intro x hx
        rcases List.mem_cons.mp hx with hx | hx
        · subst hx; exact le_trans (Nat.le_of_not_lt h) hle
        · exact hall x hx

theorem bestCandidate_spec (cands : List (Nat × Nat)) (c : Nat × Nat)
    (h : bestCandidate cands = some c) : c ∈ cands ∧ ∀ x ∈ cands, x.2 ≤ c.2 := by
  cases cands with
  | nil => cases h
  | cons hd tl =>
    have hfold : tl.foldl (fun b x => if b.2 < x.2 then x else b) hd = c :=
      Option.some.inj h
    obtain ⟨hm, hle, hall⟩ := argmax_foldl tl hd
    rw [hfold] at hm hle hall
    constructor
    · rcases hm with hm | hm
      · rw [hm]; exact List.mem_cons_self _ _
      · exact List.mem_cons_of_mem _ hm
    · intro x hx
      rcases List.mem_cons.mp hx with hx | hx
      · subst hx; exact hle
      · exact hall x hx

theorem find_best_input_spec (shader : Node) (oname otype : String) (connected : List Nat)
    (i : Nat) (h : find_best_input_socket shader oname otype connected = some i) :
    ∃ inp, shader.inputs.get? i = some inp ∧ connected.contains i = false
      ∧ 150 ≤ scoreInput5 oname otype i inp
      ∧ ∀ j inpj, shader.inputs.get? j = some inpj → connected.contains j = false →
          scoreInput5 oname otype j inpj ≤ scoreInput5 oname otype i inp := by
  unfold find_best_input_socket at h
  simp only [] at h
  cases hbc : bestCandidate ((shader.inputs.enum.filter
      (fun p => !(connected.contains p.1))).map
      (fun p => (p.1, scoreInput5 oname otype p.1 p.2))) with
  | none => rw [hbc] at h; cases h
  | some c =>
    rw [hbc] at h
    have h' : (if 150 ≤ c.2 then some c.1 else none) = some i := h
    by_cases hth : 150 ≤ c.2
    · rw [if_pos hth] at h'
      have hi : c.1 = i := Option.some.inj h'
      obtain ⟨hmem, hmax⟩ := bestCandidate_spec _ c hbc
      obtain ⟨⟨pi, ps⟩, hpfilter, hpc⟩ := List.mem_map.mp hmem
      have hpenum : (pi, ps) ∈ shader.inputs.enum := (List.mem_filter.mp hpfilter).1
      have hpconn : (!(connected.contains pi)) = true := (List.mem_filter.mp hpfilter).2
      have hget : shader.inputs.get? pi = some ps := mem_enum_get?.mp hpenum
      have hc1 : c.1 = pi := by rw [← hpc]
      have hc2 : c.2 = scoreInput5 oname otype pi ps := by rw [← hpc]
      have hip : i = pi := by rw [← hi, hc1]
      subst hip
      refine ⟨ps, hget, by simpa using hpconn, by rw [← hc2]; exact hth, ?_⟩
      intro j inpj hgj hcj
      have hjenum : (j, inpj) ∈ shader.inputs.enum := mem_enum_get?.mpr hgj
      have hjfilter : (j, inpj) ∈ shader.inputs.enum.filter
          (fun p => !(connected.contains p.1)) :=
        List.mem_filter.mpr ⟨hjenum, by simpa using hcj⟩
      have hjmem : (j, scoreInput5 oname otype j inpj) ∈
          (shader.inputs.enum.filter (fun p => !(connected.contains p.1))).map
            (fun p => (p.1, scoreInput5 oname otype p.1 p.2)) :=
        List.mem_map.mpr ⟨(j, inpj), hjfilter, rfl⟩
      have := hmax _ hjmem
      simpa [← hc2] using this
    · rw [if_neg hth] at h'; cases h'

theorem scoreInput5_eq_five_mul (a b : String) (i : Nat) (s : Socket) :
    (scoreInput5 a b i s : ℚ) = 5 * scoreInputQ a b i s := by
  unfold scoreInput5 scoreInputQ
  push_cast
  ring

/-- Claim C4: when `_find_best_input_socket` accepts an input, the chosen
input is an unconnected input of the new node whose score — exact name
match 100, else case-insensitive 90, else substring 50, plus 0.8 times the
semantic compatibility, plus 0.6 times the type compatibility, plus
max(0, 10 - index) — is at least 30 and maximal among the unconnected
inputs; and across the captured-input loop every accepted input leaves
candidacy, so the accepted indices never repeat. -/
theorem msr_c4 :
    (∀ (shader : Node) (oname otype : String) (connected : List Nat) (i : Nat),
        find_best_input_socket shader oname otype connected = some i →
        ∃ inp, shader.inputs.get? i = some inp ∧ connected.contains i = false
          ∧ 30 ≤ scoreInputQ oname otype i inp
          ∧ ∀ j inpj, shader.inputs.get? j = some inpj → connected.contains j = false →
              scoreInputQ oname otype j inpj ≤ scoreInputQ oname otype i inp)
      ∧ (∀ (newNode : Node) (pairs : List (String × CapturedIn)) (g : Graph),
          ((inputPhase newNode pairs (g, [])).2).Nodup) := by
  constructor
  · intro shader oname otype connected i h
    obtain ⟨inp, hget, hconn, hth, hmax⟩ := find_best_input_spec shader oname otype connected i h
    refine ⟨inp, hget, hconn, ?_, ?_⟩
    · have h150 : (150 : ℚ) ≤ (scoreInput5 oname otype i inp : ℚ) := by exact_mod_cast hth
      rw [scoreInput5_eq_five_mul] at h150
      linarith
    · intro j inpj hgj hcj
      have hj := hmax j inpj hgj hcj
      have hq : (scoreInput5 oname otype j inpj : ℚ)
          ≤ (scoreInput5 oname otype i inp : ℚ) := by exact_mod_cast hj
      rw [scoreInput5_eq_five_mul, scoreInput5_eq_five_mul] at hq
      linarith
  · intro newNode pairs g
    have hgen : ∀ (st : Graph × List Nat), st.2.Nodup →
        ((inputPhase newNode pairs st).2).Nodup := by
      intro st hst
      unfold inputPhase
      refine foldl_invariant (fun st => st.2.Nodup) (reconnectInputsStep newNode)
        ?_ pairs st hst
      intro a b ha
      simp only [reconnectInputsStep]
      cases hng : nodesGet a.1 b.2.from_node with
      | none => exact ha
      | some src =>
        cases hsi : (if 0 ≤ b.2.from_socket_index
            && b.2.from_socket_index < (src.outputs.length : Int)
            then some b.2.from_socket_index.toNat
            else (src.outputs.enum.find? (fun q => q.2.name == b.2.from_socket)).map
              (fun q => q.1)) with
        | none => simp only [hsi]; exact ha
        | some si =>
          simp only [hsi]
          cases hfb : find_best_input_socket newNode b.1 b.2.to_socket_type a.2 with
          | none => simp only [hfb]; exact ha
          | some ti =>
            simp only [hfb]
            obtain ⟨inp, _, hcf, _, _⟩ :=
              find_best_input_spec newNode b.1 b.2.to_socket_type a.2 ti hfb
            have hnotin : ti ∉ a.2 := by simpa using hcf
            exact List.Nodup.cons hnotin ha
    exact hgen (g, []) List.nodup_nil

/-- Closed instantiation of the input-scoring theorem: on the Principled
interface, the captured Color link picks the Base Color input. -/
theorem msr_c4_witness :
    ∃ inp, (⟨"P", "", "BSDF_PRINCIPLED", none, principledInputs,
        [⟨"BSDF", "SHADER"⟩]⟩ : Node).inputs.get? 0 = some inp
      ∧ ([] : List Nat).contains 0 = false
      ∧ 30 ≤ scoreInputQ "Color" "RGBA" 0 inp
      ∧ ∀ j inpj, (⟨"P", "", "BSDF_PRINCIPLED", none, principledInputs,
            [⟨"BSDF", "SHADER"⟩]⟩ : Node).inputs.get? j = some inpj →
          ([] : List Nat).contains j = false →
          scoreInputQ "Color" "RGBA" j inpj ≤ scoreInputQ "Color" "RGBA" 0 inp :=
  msr_c4.1 ⟨"P", "", "BSDF_PRINCIPLED", none, principledInputs, [⟨"BSDF", "SHADER"⟩]⟩
    "Color" "RGBA" [] 0 (by decide)

/-- Claim C10: one reconnect run processes each distinct material name at
most once — the processed-material trace of the run never repeats a name,
so auto-connection, the rules and snapshot restoration are applied a
single time per material even when it occupies several slots of several
selected objects. -/
theorem msr_c10 (props : Props) (env : Env) :
    (reconnectExecute props env).processed.Nodup := by
  unfold reconnectExecute
  by_cases hsel : env.selected_objects.isEmpty = true
  · simp [hsel]
  · rw [if_neg hsel]
    refine foldl_invariant (fun acc : ReconnectResult => acc.processed.Nodup) _ ?_ env.selected_objects
      ⟨env, 0, 0, 0, []⟩ List.nodup_nil
    intro a obj ha
    by_cases hmesh : (obj.objType == "MESH") = true
    · rw [if_pos hmesh]
      refine foldl_invariant (fun acc : ReconnectResult => acc.processed.Nodup) _ ?_ obj.slots a ha
      intro a2 slotM ha2
      cases slotM with
      | none => exact ha2
      | some mname =>
        simp only []
        split
        · exact ha2
        · rename_i mat hfm
          split
          · split
            · exact ha2
            · rename_i hcon
              split
              · have hnm : mat.name ∉ a2.processed := by
                  simp only [Bool.not_eq_true] at hcon
                  simpa using hcon
                simp [List.nodup_append, ha2, hnm]
              · exact ha2
          · exact ha2
    · rw [if_neg hmesh]; exact ha

theorem executeBatch_cancel_of_no_target (fac : NodeFactory) (props : Props) (env : Env)
    (h : resolveTargetShaderName props = "") :
    executeBatchReplace fac props env = ("CANCELLED", env, 0) := by
  simp [executeBatchReplace, h]

theorem executeBatch_cancel_of_unknown_target (fac : NodeFactory) (props : Props)
    (env : Env)
    (hng : env.node_groups.any
        (fun ng => ng.2 == "SHADER" && ng.1 == resolveTargetShaderName props) = false)
    (hbv : is_valid_builtin_shader (resolveTargetShaderName props) = false) :
    executeBatchReplace fac props env = ("CANCELLED", env, 0) := by
  by_cases h1 : resolveTargetShaderName props = ""
  · exact executeBatch_cancel_of_no_target fac props env h1
  · simp [executeBatchReplace, h1, hng, hbv]

theorem executeBatch_cancel_of_no_specific (fac : NodeFactory) (props : Props) (env : Env)
    (hm : props.replace_mode = "SPECIFIC") (hs : resolveSpecificShaderName props = "") :
    executeBatchReplace fac props env = ("CANCELLED", env, 0) := by
  by_cases h1 : resolveTargetShaderName props = ""
  · exact executeBatch_cancel_of_no_target fac props env h1
  · by_cases h2 : env.node_groups.any
        (fun ng => ng.2 == "SHADER" && ng.1 == resolveTargetShaderName props) = true
    · by_cases h3 : is_valid_builtin_shader (resolveTargetShaderName props) = true
      · simp [executeBatchReplace, h1, h2, h3, hm, hs]
      · simp [executeBatchReplace, h1, h2, hm, hs]
    · by_cases h3 : is_valid_builtin_shader (resolveTargetShaderName props) = true
      · simp [executeBatchReplace, h1, h2, h3, hm, hs]
      · exact executeBatch_cancel_of_unknown_target fac props env
          (Bool.not_eq_true _ ▸ h2) (Bool.not_eq_true _ ▸ h3)

theorem executeBatch_cancel_of_no_material (fac : NodeFactory) (props : Props) (env : Env)
    (hm : props.replace_mode = "MATERIAL" ∨ props.replace_mode = "MATERIAL_SPECIFIC")
    (ht : props.target_material = none) :
    executeBatchReplace fac props env = ("CANCELLED", env, 0) := by
  by_cases h1 : resolveTargetShaderName props = ""
  · exact executeBatch_cancel_of_no_target fac props env h1
  · by_cases h2 : (env.node_groups.any
        (fun ng => ng.2 == "SHADER" && ng.1 == resolveTargetShaderName props) = false)
        ∧ is_valid_builtin_shader (resolveTargetShaderName props) = false
    · exact executeBatch_cancel_of_unknown_target fac props env h2.1 h2.2
    · rcases hm with hm | hm
      · simp [executeBatchReplace, h1, hm, ht]
      · simp [executeBatchReplace, h1, hm, ht]

/-- Claim C9: an unresolved destination shader (nothing selected, or a name
that is neither a shader node group nor a valid built-in type), a SPECIFIC
run without a node-to-replace selection, or a MATERIAL or
MATERIAL_SPECIFIC run without a target material, makes the batch-replace
operator report CANCELLED and return the whole host state — graphs, cache
and snapshot — unchanged. -/
theorem msr_c9 (fac : NodeFactory) (props : Props) (env : Env)
    (h : resolveTargetShaderName props = ""
      ∨ (env.node_groups.any
            (fun ng => ng.2 == "SHADER" && ng.1 == resolveTargetShaderName props) = false
          ∧ is_valid_builtin_shader (resolveTargetShaderName props) = false)
      ∨ (props.replace_mode = "SPECIFIC" ∧ resolveSpecificShaderName props = "")
      ∨ ((props.replace_mode = "MATERIAL" ∨ props.replace_mode = "MATERIAL_SPECIFIC")
          ∧ props.target_material = none)) :
    executeBatchReplace fac props env = ("CANCELLED", env, 0) := by
  rcases h with h | ⟨hng, hbv⟩ | ⟨hm, hs⟩ | ⟨hm, ht⟩
  · exact executeBatch_cancel_of_no_target fac props env h
  · exact executeBatch_cancel_of_unknown_target fac props env hng hbv
  · exact executeBatch_cancel_of_no_specific fac props env hm hs
  · exact executeBatch_cancel_of_no_material fac props env hm ht

/-- Closed instantiation: with no built-in selected and no node group
selected, the operator cancels and the single-material environment is
untouched. -/
theorem msr_c9_witness :
    executeBatchReplace facHost propsNoTarget exC2env = ("CANCELLED", exC2env, 0) :=
  msr_c9 facHost propsNoTarget exC2env (Or.inl (by decide))

/-- Claim C1 fails on the code as frozen: in ALL mode with the destination
equal to the already-present built-in shader type, the single
BSDF_PRINCIPLED node is still selected and replaced, so the run returns a
replaced count of 1, not 0. -/
theorem msr_c1_counterexample :
    shadersToReplace exC1 "ALL" "BSDF_PRINCIPLED" "" = ["Principled BSDF"]
      ∧ (replace_material_shaders facHost [] "ALL" true "BSDF_PRINCIPLED" "" exC1).2 = 1
      ∧ (exC1.nodes.map Node.type) = ["BSDF_PRINCIPLED"] := by
  refine ⟨by decide, by decide, by decide⟩

/-- Claim C1 (amended): in ALL/MATERIAL mode the identity-differs test
applies only to group nodes — a node is selected iff its type is in the
shader-type set (regardless of the destination), or it is a group that
exposes a shader output, feeds the output node or carries a shader keyword
in its definition name AND its definition name differs from the
destination; consequently a material whose nodes are all group nodes bound
to the destination definition (and none of builtin shader type) replaces
nothing and returns 0. -/
theorem msr_c1_amended :
    (∀ (g : Graph) (target specific x : String),
        x ∈ shadersToReplace g "ALL" target specific ↔
          ∃ n ∈ g.nodes, n.name = x ∧
            (SHADER_NODE_TYPES.contains n.type = true
              ∨ (SHADER_NODE_TYPES.contains n.type = false ∧ n.type = "GROUP"
                  ∧ ∃ tn, n.nodeTree = some tn
                    ∧ (n.outputs.any (fun o => o.type == "SHADER")
                        || (connectedToOutputNodes g).contains n.name
                        || SHADER_KEYWORDS.any (fun kw => strContains (strLower tn) kw))
                        = true
                    ∧ tn ≠ target)))
      ∧ (∀ (fac : NodeFactory) (ngs : List (String × String)) (auto : Bool)
          (target specific : String) (g : Graph),
          (∀ n ∈ g.nodes, SHADER_NODE_TYPES.contains n.type = false) →
          (∀ n ∈ g.nodes, n.type = "GROUP" → ∀ tn, n.nodeTree = some tn → tn = target) →
          (replace_material_shaders fac ngs "ALL" auto target specific g).2 = 0) := by
  constructor
  · intro g target specific x
    unfold shadersToReplace
    simp only [List.mem_filterMap, show (("ALL" == "ALL" || "ALL" == "MATERIAL") = true)
      from rfl, if_pos]
    constructor
    · rintro ⟨n, hn, hf⟩
      refine ⟨n, hn, ?_⟩
      split at hf
      · rename_i hc
        exact ⟨Option.some.inj hf, Or.inl hc⟩
      · rename_i hc
        split at hf
        · rename_i hg
          split at hf
          · rename_i tn ht
            split at hf
            · rename_i hsr
              split at hf
              · rename_i hne
                exact ⟨Option.some.inj hf, Or.inr ⟨by simpa using hc, by simpa using hg,
                  tn, ht, hsr, by simpa using hne⟩⟩
              · cases hf
            · cases hf
          · cases hf
        · cases hf
    · rintro ⟨n, hn, hname, hcase⟩
      refine ⟨n, hn, ?_⟩
      rcases hcase with hc | ⟨hc, hg, tn, ht, hsr, hne⟩
      · rw [if_pos hc, hname]
      · rw [if_neg (by rw [hc]; simp)]
        split
        · split
          · rename_i tn2 ht2
            rw [ht] at ht2
            have htn : tn = tn2 := Option.some.inj ht2
            subst htn
            split
            · split
              · rw [hname]
              · rename_i hne2
                exact absurd (by simpa using hne : (tn != target) = true) hne2
            · rename_i hsr2
              exact absurd hsr hsr2
          · rename_i ht2
            rw [ht] at ht2
            cases ht2
        · rename_i hgb
          exact absurd (by rw [hg]; simp : (n.type == "GROUP") = true) hgb
  · intro fac ngs auto target specific g h1 h2
    have hempty : shadersToReplace g "ALL" target specific = [] := by
      unfold shadersToReplace
      simp only [show (("ALL" == "ALL" || "ALL" == "MATERIAL") = true) from rfl, if_pos]
      rw [List.filterMap_eq_nil_iff]
      intro n hn
      rw [if_neg (by rw [h1 n hn]; simp)]
      by_cases hg : (n.type == "GROUP") = true
      · rw [if_pos hg]
        cases ht : n.nodeTree with
        | none => rfl
        | some tn =>
          have := h2 n hn (by simpa using hg) tn ht
          subst this
          simp
      · rw [if_neg hg]
    unfold replace_material_shaders
    rw [hempty]
    rfl

/-- Closed instantiation of the amended theorem: a material whose only node
is a group bound to the destination definition yields replaced count 0. -/
theorem msr_c1_witness :
    (replace_material_shaders facHost [] "ALL" true "MyShader" "" exC1W).2 = 0 :=
  msr_c1_amended.2 facHost [] true "MyShader" "" exC1W
    (by intro n hn; simp only [exC1W, List.mem_singleton] at hn; subst hn; decide)
    (by
      intro n hn htype tn htn
      simp only [exC1W, List.mem_singleton] at hn
      subst hn
      exact (Option.some.inj htn).symm)

theorem nodesGet_name (g : Graph) (nm : String) (n : Node) (h : nodesGet g nm = some n) :
    n.name = nm := by
  have := List.find?_some h
  simpa using this

theorem nodesGet_eq_of_nodes_eq (g1 g2 : Graph) (h : g1.nodes = g2.nodes) (nm : String) :
    nodesGet g1 nm = nodesGet g2 nm := by
  unfold nodesGet
  rw [h]

theorem recordLink_valid (g : Graph) (matName mode st : String) (l : Link)
    (fn tn : Node) (hf : nodesGet g l.fromNode = some fn)
    (ht : nodesGet g l.toNode = some tn)
    (hfi : l.fromIndex < fn.outputs.length) (hti : l.toIndex < tn.inputs.length) :
    recordLink g matName mode st l =
      { material_name := matName
        from_node_name := fn.name
        from_node_type := fn.type
        from_socket_name := (fn.outputs.get ⟨l.fromIndex, hfi⟩).name
        from_socket_index := recordIndex fn.outputs l.fromIndex
        from_socket_type := (fn.outputs.get ⟨l.fromIndex, hfi⟩).type
        to_node_name := tn.name
        to_node_type := tn.type
        to_socket_name := (tn.inputs.get ⟨l.toIndex, hti⟩).name
        to_socket_index := recordIndex tn.inputs l.toIndex
        to_socket_type := (tn.inputs.get ⟨l.toIndex, hti⟩).type
        replace_mode := mode
        shader_type := st } := by
  simp [recordLink, hf, ht, List.getElem?_eq_getElem hfi, List.getElem?_eq_getElem hti,
    List.get_eq_getElem]

theorem linksRestorable_spec (g : Graph) (h : linksRestorable g = true) :
    ∀ l ∈ g.links, ∃ fn tn, nodesGet g l.fromNode = some fn
      ∧ nodesGet g l.toNode = some tn
      ∧ l.fromIndex < fn.outputs.length ∧ l.toIndex < tn.inputs.length
      ∧ recordIndex fn.outputs l.fromIndex = l.fromIndex
      ∧ recordIndex tn.inputs l.toIndex = l.toIndex
      ∧ l.fromNode ≠ "" ∧ l.toNode ≠ "" := by
  intro l hl
  unfold linksRestorable at h
  rw [List.all_eq_true] at h
  have hx := h l hl
  cases hf : nodesGet g l.fromNode with
  | none => rw [hf] at hx; simp at hx
  | some fn =>
    cases ht : nodesGet g l.toNode with
    | none => rw [hf, ht] at hx; simp at hx
    | some tn =>
      rw [hf, ht] at hx
      simp only [Bool.and_eq_true, bne_iff_ne, ne_eq, decide_eq_true_eq,
        beq_iff_eq] at hx
      exact ⟨fn, tn, rfl, rfl, by tauto, by tauto, by tauto, by tauto, by tauto, by tauto⟩

theorem restore_roundtrip_aux (fullg : Graph) (matName mode st : String) :
    ∀ (ls : List Link) (acc : Graph × Nat),
      acc.1.nodes = fullg.nodes →
      (∀ l ∈ ls, ∃ fn tn, nodesGet fullg l.fromNode = some fn
          ∧ nodesGet fullg l.toNode = some tn
          ∧ l.fromIndex < fn.outputs.length ∧ l.toIndex < tn.inputs.length
          ∧ recordIndex fn.outputs l.fromIndex = l.fromIndex
          ∧ recordIndex tn.inputs l.toIndex = l.toIndex
          ∧ l.fromNode ≠ "" ∧ l.toNode ≠ "") →
      (ls.map (recordLink fullg matName mode st)).foldl (restoreStep matName) acc
        = (⟨acc.1.nodes, acc.1.links ++ ls⟩, acc.2 + ls.length) := by
  intro ls
  induction ls with
  | nil => intro acc h1 _; simp
  | cons l rest ih =>
    intro acc hnodes hcond
    obtain ⟨fn, tn, hf, ht, hfi, hti, hrf, hrt, hne1, hne2⟩ :=
      hcond l (List.mem_cons_self l rest)
    have hrec := recordLink_valid fullg matName mode st l fn tn hf ht hfi hti
    have hfname : fn.name = l.fromNode := nodesGet_name _ _ _ hf
    have htname : tn.name = l.toNode := nodesGet_name _ _ _ ht
    have hacc_f : nodesGet acc.1 l.fromNode = some fn := by
      rw [nodesGet_eq_of_nodes_eq acc.1 fullg hnodes]; exact hf
    have hacc_t : nodesGet acc.1 l.toNode = some tn := by
      rw [nodesGet_eq_of_nodes_eq acc.1 fullg hnodes]; exact ht
    have hstep : restoreStep matName acc (recordLink fullg matName mode st l)
        = (addLink acc.1 l, acc.2 + 1) := by
      rw [hrec]
      simp only [restoreStep, hfname, htname, bne_self_eq_false, Bool.false_eq_true,
        if_false, hacc_f, hacc_t, hrf, hrt]
      rw [if_neg (by simp [hne1, hne2])]
      rw [if_pos (by simp [hfi, hti])]
    simp only [List.map_cons, List.foldl_cons, hstep]
    rw [ih (addLink acc.1 l, acc.2 + 1) (by simp [addLink, hnodes])
      (fun l2 hl2 => hcond l2 (List.mem_cons_of_mem _ hl2))]
    simp [addLink]
    omega

theorem disconnectMaterial_rec_length (props : Props) (st : List String) (mat : Material) :
    (disconnectMaterial props st mat).2.1.length = (disconnectMaterial props st mat).2.2 := by
  unfold disconnectMaterial
  simp

theorem restoreStep_skip (matName : String) (g : Graph) (c : Nat) (r : SnapshotRecord)
    (h : snapshotRecordResolves g matName r = false) :
    restoreStep matName (g, c) r = (g, c) := by
  unfold restoreStep
  by_cases hm : (r.material_name != matName) = true
  · rw [if_pos hm]
  · rw [if_neg hm]
    by_cases he : (r.from_node_name == "" || r.to_node_name == "") = true
    · rw [if_pos he]
    · rw [if_neg he]
      cases hfn : nodesGet g r.from_node_name with
      | none => rfl
      | some fn =>
        cases htn : nodesGet g r.to_node_name with
        | none => rfl
        | some tn =>
          simp only []
          rw [if_neg]
          intro hidx
          have hres : snapshotRecordResolves g matName r = true := by
            unfold snapshotRecordResolves
            rw [hfn, htn]
            simp only [Bool.not_eq_true, bne_eq_false_iff_eq] at hm
            simp only [Bool.or_eq_true, not_or, Bool.not_eq_true] at he
            simp [bne, hm, he.1, he.2, hidx]
          rw [hres] at h
          simp at h

theorem disconnect_count_records (props : Props) (env : Env)
    (hfin : (disconnectExecute props env).2.2 = true) :
    ((disconnectExecute props env).1.connection_snapshot).length
      = (disconnectExecute props env).2.1 := by
  unfold disconnectExecute at hfin ⊢
  by_cases hsel : env.selected_objects.isEmpty = true
  · rw [if_pos hsel] at hfin; simp at hfin
  · rw [if_neg hsel] at hfin ⊢
    by_cases hmat : ((props.replace_mode == "MATERIAL")
        && props.target_material.isNone) = true
    · rw [if_pos hmat] at hfin; simp at hfin
    · rw [if_neg hmat]
      have hinv := foldl_invariant
        (fun s : Env × Nat => s.1.connection_snapshot.length = s.2)
        (fun acc obj =>
          if obj.objType == "MESH" then
            obj.slots.foldl (fun a2 slotM =>
              match slotM with
              | none => a2
              | some mname =>
                match findMaterial a2.1 mname with
                | none => a2
                | some mat =>
                  if mat.use_nodes then
                    if materialShouldProcess props mat.name then
                      let d := disconnectMaterial props
                        (get_shader_types_for_scope props) mat
                      ({ updateMaterialGraph a2.1 mat.name d.1 with
                          connection_snapshot := a2.1.connection_snapshot ++ d.2.1 },
                        a2.2 + d.2.2)
                    else a2
                  else a2) acc
          else acc)
        ?_ env.selected_objects ({ env with connection_snapshot := [] }, 0) (by simp)
      · exact hinv
      · intro a obj ha
        simp only []
        by_cases hmesh : (obj.objType == "MESH") = true
        · rw [if_pos hmesh]
          refine foldl_invariant
            (fun s : Env × Nat => s.1.connection_snapshot.length = s.2) _ ?_ obj.slots a ha
          intro a2 slotM ha2
          cases slotM with
          | none => exact ha2
          | some mname =>
            simp only []
            split
            · exact ha2
            · rename_i mat hfm
              split
              · split
                · simp only []
                  simp [List.length_append, ha2,
                    disconnectMaterial_rec_length props (get_shader_types_for_scope props) mat]
                · exact ha2
              · exact ha2
        · rw [if_neg hmesh]; exact ha

/-- Claim C3 fails on the code as frozen: disconnecting the link into the
SECOND of two same-named Shader inputs of a mix shader records index 1
(the first input bearing that name), so the immediate restore recreates
the link at index 1 instead of the original index 2. -/
theorem msr_c3_counterexample :
    (disconnectExecute propsAllNoAuto exC3env).2.1 = 1
      ∧ ((disconnectExecute propsAllNoAuto exC3env).1.connection_snapshot).length = 1
      ∧ exC3graph.links = [⟨"A", 0, "M", 2⟩]
      ∧ (restore_connections_from_snapshot
            (disconnectExecute propsAllNoAuto exC3env).1.connection_snapshot
            ⟨exC3graph.nodes, []⟩ "M1").1.links = [⟨"A", 0, "M", 1⟩] := by
  exact ⟨by decide, by decide, by decide, by decide⟩

/-- Claim C3 (amended): a finished disconnect run stores exactly one
snapshot record per removed link, so the reported count equals the number
of records; an ALL-scope disconnect of one material removes every link,
and when every linked socket is the first socket of its name on its node
(so the recorded index equals the positional index), an immediate restore
with no auto-connect and no rules recreates exactly the original links at
the original (source node, source index, target node, target index)
quadruples, returning their number; records that fail any resolution test
are skipped without aborting the batch. -/
theorem msr_c3_amended :
    (∀ (props : Props) (env : Env), (disconnectExecute props env).2.2 = true →
        ((disconnectExecute props env).1.connection_snapshot).length
          = (disconnectExecute props env).2.1)
      ∧ (∀ (props : Props) (shaderTypes : List String) (mat : Material),
          shaderTypes.contains "ALL" = true → linksRestorable mat.graph = true →
          (disconnectMaterial props shaderTypes mat).2.2 = mat.graph.links.length
            ∧ (disconnectMaterial props shaderTypes mat).2.1.length
                = (disconnectMaterial props shaderTypes mat).2.2
            ∧ restore_connections_from_snapshot
                (disconnectMaterial props shaderTypes mat).2.1
                (disconnectMaterial props shaderTypes mat).1 mat.name
              = (mat.graph, mat.graph.links.length))
      ∧ (∀ (r : SnapshotRecord) (rest : List SnapshotRecord) (g : Graph)
          (matName : String),
          snapshotRecordResolves g matName r = false →
          restore_connections_from_snapshot (r :: rest) g matName
            = restore_connections_from_snapshot rest g matName) := by
  refine ⟨disconnect_count_records, ?_, ?_⟩
  · intro props shaderTypes mat hall hrest
    have hd : disconnectMaterial props shaderTypes mat
        = ({ mat.graph with links := [] },
           mat.graph.links.map (recordLink mat.graph mat.name props.replace_mode
             (if shaderTypes.isEmpty then "ALL" else String.intercalate "," shaderTypes)),
           mat.graph.links.length) := by
      unfold disconnectMaterial disconnectLinksToRemove
      rw [hall]
      simp
    rw [hd]
    refine ⟨rfl, by simp, ?_⟩
    unfold restore_connections_from_snapshot
    rw [restore_roundtrip_aux mat.graph mat.name props.replace_mode _ mat.graph.links
      ({ mat.graph with links := [] }, 0) rfl (linksRestorable_spec mat.graph hrest)]
    simp
  · intro r rest g matName h
    unfold restore_connections_from_snapshot
    simp only [List.foldl_cons]
    rw [restoreStep_skip matName g 0 r h]

/-- Closed instantiation of the amended round trip on the diffuse material:
one link out, one record stored, the same link back. -/
theorem msr_c3_witness :
    (disconnectMaterial propsAllNoAuto ["ALL"] ⟨"W", true, exC2⟩).2.2
        = exC2.links.length
      ∧ (disconnectMaterial propsAllNoAuto ["ALL"] ⟨"W", true, exC2⟩).2.1.length
          = (disconnectMaterial propsAllNoAuto ["ALL"] ⟨"W", true, exC2⟩).2.2
      ∧ restore_connections_from_snapshot
          (disconnectMaterial propsAllNoAuto ["ALL"] ⟨"W", true, exC2⟩).2.1
          (disconnectMaterial propsAllNoAuto ["ALL"] ⟨"W", true, exC2⟩).1 "W"
        = (exC2, exC2.links.length) :=
  msr_c3_amended.2.1 propsAllNoAuto ["ALL"] ⟨"W", true, exC2⟩ (by decide) (by decide)

theorem surfaceInputIdxReplace_isSome (n : Node) (h : n.inputs ≠ []) :
    ∃ si, surfaceInputIdxReplace n = some si := by
  unfold surfaceInputIdxReplace
  cases hf : firstIdxNamed n.inputs "Surface" with
  | some i => exact ⟨i, rfl⟩
  | none => exact ⟨0, by simp [List.isEmpty_iff, h]⟩

theorem genericOutStep_spec (newNode tgt : Node) (sname : String) (conn : CapturedOut)
    (st : Graph × List Nat × Bool) :
    (genericOutStep newNode tgt sname conn st).1.nodes = st.1.nodes
      ∧ (genericOutStep newNode tgt sname conn st).2.2 = st.2.2
      ∧ ∀ x ∈ st.1.links, x ∈ (genericOutStep newNode tgt sname conn st).1.links := by
  simp only [genericOutStep]
  cases htgt : (if 0 ≤ conn.to_socket_index
      && conn.to_socket_index < (tgt.inputs.length : Int)
      then some conn.to_socket_index.toNat
      else (tgt.inputs.enum.find? (fun q => q.2.name == conn.to_socket)).map
        (fun q => q.1)) with
  | none => exact ⟨rfl, rfl, fun x hx => hx⟩
  | some ti =>
    cases hfb : find_best_output_socket newNode sname conn.from_socket_type st.2.1 with
    | none => exact ⟨rfl, rfl, fun x hx => hx⟩
    | some si => exact ⟨rfl, rfl, fun x hx => List.mem_append_left _ hx⟩

theorem reconnectOutputsStep_inv (newNode : Node) (N : List Node)
    (st : Graph × List Nat × Bool) (p : String × CapturedOut)
    (h : st.1.nodes = N ∧ (st.2.2 = true → ∃ n ∈ N, n.type = "OUTPUT_MATERIAL"
        ∧ ∃ so si, findShaderOutputIdx newNode = some so
          ∧ surfaceInputIdxReplace n = some si
          ∧ Link.mk newNode.name so n.name si ∈ st.1.links)) :
    (reconnectOutputsStep newNode st p).1.nodes = N
      ∧ ((reconnectOutputsStep newNode st p).2.2 = true →
          ∃ n ∈ N, n.type = "OUTPUT_MATERIAL"
            ∧ ∃ so si, findShaderOutputIdx newNode = some so
              ∧ surfaceInputIdxReplace n = some si
              ∧ Link.mk newNode.name so n.name si
                  ∈ (reconnectOutputsStep newNode st p).1.links) := by
  obtain ⟨hN, hinv⟩ := h
  have hgen : ∀ tgt, (genericOutStep newNode tgt p.1 p.2 st).1.nodes = N
      ∧ ((genericOutStep newNode tgt p.1 p.2 st).2.2 = true →
          ∃ n ∈ N, n.type = "OUTPUT_MATERIAL"
            ∧ ∃ so si, findShaderOutputIdx newNode = some so
              ∧ surfaceInputIdxReplace n = some si
              ∧ Link.mk newNode.name so n.name si
                  ∈ (genericOutStep newNode tgt p.1 p.2 st).1.links) := by
    intro tgt
    obtain ⟨g1, g2, g3⟩ := genericOutStep_spec newNode tgt p.1 p.2 st
    refine ⟨hN ▸ g1, fun hf => ?_⟩
    rw [g2] at hf
    obtain ⟨n, hn, ht, so, si, hso2, hsi, hl⟩ := hinv hf
    exact ⟨n, hn, ht, so, si, hso2, hsi, g3 _ hl⟩
  simp only [reconnectOutputsStep]
  split
  · exact ⟨hN, hinv⟩
  · rename_i tgt hng
    split
    · rename_i hcond
      split
      · rename_i so hso
        split
        · rename_i si hsi
          have htmem : tgt ∈ st.1.nodes := List.mem_of_find?_eq_some hng
          have htype : tgt.type = "OUTPUT_MATERIAL" := by
            have hc := hcond
            simp only [Bool.and_eq_true, beq_iff_eq] at hc
            exact hc.1
          refine ⟨hN, fun _ => ?_⟩
          exact ⟨tgt, hN ▸ htmem, htype, so, si, hso, hsi,
            List.mem_append_right _ (by simp)⟩
        · exact hgen tgt
      · exact hgen tgt
    · exact hgen tgt

theorem outputFallback_spec (newNode : Node) (st : Graph × List Nat × Bool)
    (houts : newNode.outputs.isEmpty = false)
    (hex : ∃ n ∈ st.1.nodes, n.type = "OUTPUT_MATERIAL")
    (hin : ∀ n ∈ st.1.nodes, n.type = "OUTPUT_MATERIAL" → n.inputs ≠ [])
    (hinv : st.2.2 = true → ∃ n ∈ st.1.nodes, n.type = "OUTPUT_MATERIAL"
        ∧ ∃ so si, findShaderOutputIdx newNode = some so
          ∧ surfaceInputIdxReplace n = some si
          ∧ Link.mk newNode.name so n.name si ∈ st.1.links) :
    (outputFallback newNode st).1.nodes = st.1.nodes
      ∧ ∃ n ∈ st.1.nodes, n.type = "OUTPUT_MATERIAL"
          ∧ ∃ so si, findShaderOutputIdx newNode = some so
            ∧ surfaceInputIdxReplace n = some si
            ∧ Link.mk newNode.name so n.name si ∈ (outputFallback newNode st).1.links := by
  unfold outputFallback
  split
  · rename_i hflag
    obtain ⟨n, hn, ht, so, si, a, b, c⟩ := hinv hflag
    exact ⟨rfl, n, hn, ht, so, si, a, b, c⟩
  · split
    · rename_i hfind
      exfalso
      obtain ⟨n, hn, ht⟩ := hex
      have hsome : (st.1.nodes.find? (fun n => n.type == "OUTPUT_MATERIAL")).isSome :=
        List.find?_isSome.mpr ⟨n, hn, by simp [ht]⟩
      rw [hfind] at hsome
      cases hsome
    · rename_i outN hfind
      have houtmem : outN ∈ st.1.nodes := List.mem_of_find?_eq_some hfind
      have houttype : outN.type = "OUTPUT_MATERIAL" := by
        simpa using List.find?_some hfind
      split
      · rename_i so hso
        split
        · rename_i si hsi
          exact ⟨rfl, outN, houtmem, houttype, so, si, hso, hsi,
            List.mem_append_right _ (by simp)⟩
        · rename_i hsi
          obtain ⟨si, hsi2⟩ := surfaceInputIdxReplace_isSome outN
            (hin outN houtmem houttype)
          rw [hsi2] at hsi
          cases hsi
      · rename_i hso
        obtain ⟨so, hso2⟩ := findShaderOutputIdx_isSome_of_ne_empty newNode houts
        rw [hso2] at hso
        cases hso

theorem outputPhase_connects (newNode : Node) (pairs : List (String × CapturedOut))
    (g : Graph)
    (houts : newNode.outputs.isEmpty = false)
    (hex : ∃ n ∈ g.nodes, n.type = "OUTPUT_MATERIAL")
    (hin : ∀ n ∈ g.nodes, n.type = "OUTPUT_MATERIAL" → n.inputs ≠ []) :
    (outputPhase newNode pairs g).1.nodes = g.nodes
      ∧ ∃ n ∈ g.nodes, n.type = "OUTPUT_MATERIAL"
          ∧ ∃ so si, findShaderOutputIdx newNode = some so
            ∧ surfaceInputIdxReplace n = some si
            ∧ Link.mk newNode.name so n.name si ∈ (outputPhase newNode pairs g).1.links := by
  unfold outputPhase
  have hfold := foldl_invariant
    (fun st : Graph × List Nat × Bool => st.1.nodes = g.nodes
      ∧ (st.2.2 = true → ∃ n ∈ g.nodes, n.type = "OUTPUT_MATERIAL"
          ∧ ∃ so si, findShaderOutputIdx newNode = some so
            ∧ surfaceInputIdxReplace n = some si
            ∧ Link.mk newNode.name so n.name si ∈ st.1.links))
    (reconnectOutputsStep newNode)
    (fun a b ha => reconnectOutputsStep_inv newNode g.nodes a b ha)
    pairs (g, [], false) ⟨rfl, fun hf => absurd hf (by simp)⟩
  obtain ⟨hN, hinv⟩ := hfold
  have hspec := outputFallback_spec newNode
    (pairs.foldl (reconnectOutputsStep newNode) (g, [], false))
    houts (hN ▸ hex) (hN ▸ hin) (fun hf => by
      obtain ⟨n, hn, ht, so, si, a, b, c⟩ := hinv hf
      exact ⟨n, hN ▸ hn, ht, so, si, a, b, c⟩)
  obtain ⟨h1, n, hn, ht, so, si, a, b, c⟩ := hspec
  exact ⟨h1.trans hN, n, hN ▸ hn, ht, so, si, a, b, c⟩

theorem reconnectInputsStep_nodes (newNode : Node) (st : Graph × List Nat)
    (p : String × CapturedIn) :
    (reconnectInputsStep newNode st p).1.nodes = st.1.nodes := by
  simp only [reconnectInputsStep]
  split
  · rfl
  · split
    · rfl
    · split
      · rfl
      · rfl

theorem inputPhase_nodes (newNode : Node) :
    ∀ (pairs : List (String × CapturedIn)) (st : Graph × List Nat),
      (inputPhase newNode pairs st).1.nodes = st.1.nodes := by
  intro pairs
  induction pairs with
  | nil => intro st; rfl
  | cons p rest ih =>
    intro st
    unfold inputPhase at *
    rw [List.foldl_cons, ih (reconnectInputsStep newNode st p)]
    exact reconnectInputsStep_nodes newNode st p

/-- Claim C2 fails on the code as frozen: with auto-connect disabled the
replacement still completes (count 1) but the reconnect phases never run,
so the new shader node is left with no link to the present material output
node. -/
theorem msr_c2_counterexample :
    (replace_material_shaders facHost [] "ALL" false "BSDF_PRINCIPLED" "" exC2).2 = 1
      ∧ (∃ n ∈ exC2.nodes, n.type = "OUTPUT_MATERIAL")
      ∧ (replace_material_shaders facHost [] "ALL" false "BSDF_PRINCIPLED" "" exC2).1.links
          = [] := by
  exact ⟨by decide, by decide, by decide⟩

/-- Claim C2 (amended): when auto-connect is enabled, the instantiated node
exposes at least one output, some node other than the target carries the
material-output type, and every material-output node has inputs, then
after one replace cycle the new node is linked to the canonical surface
input (the input named Surface, else the first input) of a material-output
node — whether or not the captured topology contained an output link, the
fallback search guarantees it. -/
theorem msr_c2_amended (fac : NodeFactory) (ngs : List (String × String))
    (target : String) (g : Graph) (oldName : String) (old : Node)
    (hold : nodesGet g oldName = some old)
    (houts : (instantiateNewShader fac ngs target).outputs ≠ [])
    (hnew : (instantiateNewShader fac ngs target).type ≠ "OUTPUT_MATERIAL")
    (hex : ∃ n ∈ g.nodes, n.name ≠ oldName ∧ n.type = "OUTPUT_MATERIAL")
    (hin : ∀ n ∈ g.nodes, n.type = "OUTPUT_MATERIAL" → n.inputs ≠ []) :
    (replaceOneShader fac ngs true target g oldName).2 = true
      ∧ ∃ n ∈ (replaceOneShader fac ngs true target g oldName).1.nodes,
          n.type = "OUTPUT_MATERIAL"
          ∧ ∃ so si,
              findShaderOutputIdx (instantiateNewShader fac ngs target) = some so
              ∧ surfaceInputIdxReplace n = some si
              ∧ Link.mk (instantiateNewShader fac ngs target).name so n.name si
                  ∈ (replaceOneShader fac ngs true target g oldName).1.links := by
  have hred : replaceOneShader fac ngs true target g oldName
      = ((outputPhase (instantiateNewShader fac ngs target)
            (flattenGroups (groupByKey (captureOutputs g old)))
            ((inputPhase (instantiateNewShader fac ngs target)
              (flattenGroups (groupByKey (captureInputs g old)))
              (⟨(removeNode g oldName).nodes ++ [instantiateNewShader fac ngs target],
                (removeNode g oldName).links⟩, [])).1)).1, true) := by
    unfold replaceOneShader
    rw [hold]
    rfl
  rw [hred]
  refine ⟨rfl, ?_⟩
  have hg3 := inputPhase_nodes (instantiateNewShader fac ngs target)
    (flattenGroups (groupByKey (captureInputs g old)))
    (⟨(removeNode g oldName).nodes ++ [instantiateNewShader fac ngs target],
      (removeNode g oldName).links⟩, [])
  have houts2 : (instantiateNewShader fac ngs target).outputs.isEmpty = false := by
    cases ho : (instantiateNewShader fac ngs target).outputs with
    | nil => exact absurd ho houts
    | cons a tl => simp [ho]
  obtain ⟨n0, hn0, hname0, htype0⟩ := hex
  have hn0er : n0 ∈ (removeNode g oldName).nodes := by
    unfold removeNode
    exact (List.mem_eraseP_of_neg (by simp [hname0])).mpr hn0
  have hex3 : ∃ n ∈ ((inputPhase (instantiateNewShader fac ngs target)
      (flattenGroups (groupByKey (captureInputs g old)))
      (⟨(removeNode g oldName).nodes ++ [instantiateNewShader fac ngs target],
        (removeNode g oldName).links⟩, [])).1).nodes, n.type = "OUTPUT_MATERIAL" := by
    rw [hg3]
    exact ⟨n0, List.mem_append_left _ hn0er, htype0⟩
  have hin3 : ∀ n ∈ ((inputPhase (instantiateNewShader fac ngs target)
      (flattenGroups (groupByKey (captureInputs g old)))
      (⟨(removeNode g oldName).nodes ++ [instantiateNewShader fac ngs target],
        (removeNode g oldName).links⟩, [])).1).nodes,
      n.type = "OUTPUT_MATERIAL" → n.inputs ≠ [] := by
    rw [hg3]
    intro n hn htype
    rcases List.mem_append.mp hn with hn | hn
    · exact hin n (List.mem_of_mem_eraseP hn) htype
    · rw [List.mem_singleton] at hn
      subst hn
      exact absurd htype hnew
  obtain ⟨hnodes4, n, hn, ht, so, si, hso, hsi, hl⟩ :=
    outputPhase_connects (instantiateNewShader fac ngs target)
      (flattenGroups (groupByKey (captureOutputs g old))) _ houts2 hex3 hin3
  exact ⟨n, by rw [hnodes4]; exact hn, ht, so, si, hso, hsi, hl⟩

/-- Closed instantiation of the amended fallback theorem on the diffuse
material with auto-connect enabled. -/
theorem msr_c2_witness :
    (replaceOneShader facHost [] true "BSDF_PRINCIPLED" exC2 "Diffuse BSDF").2 = true
      ∧ ∃ n ∈ (replaceOneShader facHost [] true "BSDF_PRINCIPLED" exC2
            "Diffuse BSDF").1.nodes,
          n.type = "OUTPUT_MATERIAL"
          ∧ ∃ so si,
              findShaderOutputIdx (instantiateNewShader facHost [] "BSDF_PRINCIPLED")
                  = some so
              ∧ surfaceInputIdxReplace n = some si
              ∧ Link.mk (instantiateNewShader facHost [] "BSDF_PRINCIPLED").name so n.name si
                  ∈ (replaceOneShader facHost [] true "BSDF_PRINCIPLED" exC2
                      "Diffuse BSDF").1.links :=
  msr_c2_amended facHost [] "BSDF_PRINCIPLED" exC2 "Diffuse BSDF"
    ⟨"Diffuse BSDF", "", "BSDF_DIFFUSE", none,
      [⟨"Color", "RGBA"⟩, ⟨"Roughness", "VALUE"⟩, ⟨"Normal", "VECTOR"⟩],
      [⟨"BSDF", "SHADER"⟩]⟩
    (by decide) (by decide) (by decide) (by decide) (by decide)
